import Mathlib

/-!
Verification development for the StorageAI voice-inventory pipeline.

The Python sources are shallowly embedded: pure functions become Lean
functions, stateful services thread an explicit state record, fallible
code returns `Except`, and the external collaborators (the OpenAI chat
backend, the JSON decoder applied to its replies, the embedder + vector
index, the `difflib` fuzzy matcher, and the transcription stream) are
oracle parameters collected in environment records.

Scores are modelled as rationals (`ℚ`); the similarity threshold 0.80
becomes `mkRat 80 100`.
-/

set_option maxRecDepth 10000
set_option maxHeartbeats 2000000

namespace StorageAI

/-! ## Python string primitives -/

/-- The characters Python `str.strip()` removes. -/
def pySpace (c : Char) : Bool :=
  c = ' ' || c = '\t' || c = '\n' || c = '\x0d' || c = '\x0b' || c = '\x0c'

/-- `str.strip()` at the character-list level. -/
def stripL (cs : List Char) : List Char :=
  ((cs.dropWhile pySpace).reverse.dropWhile pySpace).reverse

/-- `str.lower()` at the character-list level (ASCII, which is all the
sources feed it). -/
def lowerL (cs : List Char) : List Char :=
  cs.map Char.toLower

/-- Python `str.strip()`. -/
def pyStrip (s : String) : String :=
  String.mk (stripL s.toList)

/-- Python `str.lower()`. -/
def pyLower (s : String) : String :=
  String.mk (lowerL s.toList)

/-- Python `str.upper()` (ASCII). -/
def pyUpper (s : String) : String :=
  String.mk (s.toList.map Char.toUpper)

/-- `str.split()` worker: accumulate the current word (reversed),
emit it at each whitespace run. -/
def wsplitAux : List Char → List Char → List (List Char)
  | [], acc => if acc.isEmpty then [] else [acc.reverse]
  | c :: cs, acc =>
      if pySpace c then
        if acc.isEmpty then wsplitAux cs [] else acc.reverse :: wsplitAux cs []
      else wsplitAux cs (c :: acc)

/-- `str.split()` with no argument at the list level: split on whitespace
runs, dropping empty fields. -/
def wsplit (cs : List Char) : List (List Char) :=
  wsplitAux cs []

/-- Python `str.split()`. -/
def pySplit (s : String) : List String :=
  (wsplit s.toList).map String.mk

/-- `" ".join` at the list level. -/
def joinWords : List (List Char) → List Char
  | [] => []
  | [w] => w
  | w :: ws => w ++ ' ' :: joinWords ws

/-- Python `" ".join(xs)`. -/
def joinSpace (xs : List String) : String :=
  String.mk (joinWords (xs.map String.toList))

/-- Python `"; ".join(xs)`. -/
def joinSemi (xs : List String) : String :=
  match xs with
  | [] => ""
  | [x] => x
  | x :: rest => x ++ "; " ++ joinSemi rest

/-- Python truthiness of a string: nonempty. -/
def strTruthy (s : String) : Bool := !s.toList.isEmpty

/-- Python `str.isdigit()` restricted to ASCII (all inputs here are ASCII). -/
def pyIsDigit (s : String) : Bool :=
  !s.toList.isEmpty && s.toList.all Char.isDigit

/-- Python `str.startswith` (list level, so the kernel can evaluate it). -/
def pyStartsWith (s pre : String) : Bool := pre.toList.isPrefixOf s.toList

/-- Python `str.endswith` (list level). -/
def pyEndsWith (s suf : String) : Bool := suf.toList.isSuffixOf s.toList

/-- Python `s[:-n]` for `n ≤ len(s)`. -/
def dropRightStr (s : String) (n : Nat) : String :=
  String.mk (s.toList.take (s.toList.length - n))

/-- Strip one trailing run matching the regex `[\.,!?]+$`
(`re.sub(r"[\.,!?]+$", "", s)`). -/
def stripTrailingPunct (s : String) : String :=
  String.mk ((s.toList.reverse.dropWhile
    (fun c => c = '.' || c = ',' || c = '!' || c = '?')).reverse)

/-- Python `\w` word characters (ASCII fragment, matching the lowercased
ASCII inputs of this program). -/
def wordChar (c : Char) : Bool :=
  c.isAlpha || c.isDigit || c = '_'

/-! ## A small backtracking regex engine

The sources lean heavily on `re.search`/`re.sub`; this engine mirrors
CPython's backtracking semantics (ordered alternation, greedy and lazy
repetition, leftmost match) for the constructs those patterns use. -/

/-- Regex abstract syntax. `cls` carries the character-class predicate,
`group` a capture-group number, `wordB` is `\b`, `bos`/`eos` are `^`/`$`. -/
inductive Re where
  | eps : Re
  | anyc : Re
  | lit : Char → Re
  | cls : (Char → Bool) → Re
  | seq : Re → Re → Re
  | alt : Re → Re → Re
  | star : Bool → Re → Re
  | group : Nat → Re → Re
  | wordB : Re
  | bos : Re
  | eos : Re

namespace Re

/-- `a+` (greedy if the flag is true). -/
def plus (greedy : Bool) (a : Re) : Re := seq a (star greedy a)

/-- `a?` (greedy). -/
def opt (a : Re) : Re := alt a eps

/-- Literal string. -/
def str (s : String) : Re :=
  (s.toList.foldr (fun c acc => seq (lit c) acc) eps)

/-- Ordered alternation over several literal strings. -/
def strAlt (xs : List String) : Re :=
  match xs with
  | [] => cls (fun _ => false)
  | [x] => str x
  | x :: rest => alt (str x) (strAlt rest)

end Re

/-- Character comparison, optionally case-insensitive. -/
def chEq (ci : Bool) (pat inp : Char) : Bool :=
  if ci then pat.toLower = inp.toLower else pat = inp

/-- Capture record: group number, start, end (character offsets). -/
abbrev Caps := List (Nat × Nat × Nat)

/-- CPS backtracking matcher. `cs` is the subject, `ci` the IGNORECASE
flag, `i` the current offset, `k` the continuation; `none` signals
failure and triggers backtracking in the caller. Fuel bounds recursion. -/
def reM (cs : Array Char) (ci : Bool) :
    Nat → Re → Nat → Caps → (Nat → Caps → Option (Nat × Caps)) → Option (Nat × Caps)
  | 0, _, _, _, _ => none
  | _ + 1, Re.eps, i, caps, k => k i caps
  | _ + 1, Re.anyc, i, caps, k =>
      match cs.get? i with
      | some c => if c ≠ '\n' then k (i + 1) caps else none
      | none => none
  | _ + 1, Re.lit c, i, caps, k =>
      match cs.get? i with
      | some d => if chEq ci c d then k (i + 1) caps else none
      | none => none
  | _ + 1, Re.cls p, i, caps, k =>
      match cs.get? i with
      | some d => if p d then k (i + 1) caps else none
      | none => none
  | fuel + 1, Re.seq a b, i, caps, k =>
      reM cs ci fuel a i caps (fun j caps2 => reM cs ci fuel b j caps2 k)
  | fuel + 1, Re.alt a b, i, caps, k =>
      match reM cs ci fuel a i caps k with
      | some r => some r
      | none => reM cs ci fuel b i caps k
  | fuel + 1, Re.star greedy a, i, caps, k =>
      if greedy then
        match reM cs ci fuel a i caps (fun j caps2 =>
            if j = i then none else reM cs ci fuel (Re.star greedy a) j caps2 k) with
        | some r => some r
        | none => k i caps
      else
        match k i caps with
        | some r => some r
        | none =>
            reM cs ci fuel a i caps (fun j caps2 =>
              if j = i then none else reM cs ci fuel (Re.star greedy a) j caps2 k)
  | fuel + 1, Re.group n a, i, caps, k =>
      reM cs ci fuel a i caps (fun j caps2 => k j ((n, i, j) :: caps2))
  | _ + 1, Re.wordB, i, caps, k =>
      let before := match cs.get? (i - 1) with
        | some c => i ≠ 0 && wordChar c
        | none => false
      let after := match cs.get? i with
        | some c => wordChar c
        | none => false
      if before ≠ after then k i caps else none
  | _ + 1, Re.bos, i, caps, k => if i = 0 then k i caps else none
  | _ + 1, Re.eos, i, caps, k => if i = cs.size then k i caps else none

/-- A match: start offset, end offset, captures. -/
structure RMatch where
  ms : Nat
  me : Nat
  caps : Caps

/-- Fuel used for all engine runs (ample for the short command strings
this program processes). -/
def reFuel : Nat := 1000000

/-- Try to match `r` anchored at offset `i`. -/
def reMatchAt (r : Re) (cs : Array Char) (ci : Bool) (i : Nat) : Option RMatch :=
  match reM cs ci reFuel r i [] (fun j caps => some (j, caps)) with
  | some (j, caps) => some ⟨i, j, caps⟩
  | none => none

/-- Helper for `reSearch`: scan start offsets `i, i+1, ...`. -/
def reSearchAux (r : Re) (cs : Array Char) (ci : Bool) :
    Nat → Nat → Option RMatch
  | 0, _ => none
  | fuel + 1, i =>
      match reMatchAt r cs ci i with
      | some m => some m
      | none => if i < cs.size then reSearchAux r cs ci fuel (i + 1) else none

/-- Python `re.search`: leftmost match anywhere in the subject. -/
def reSearch (r : Re) (s : String) (ci : Bool := false) : Option RMatch :=
  let cs := s.toList.toArray
  reSearchAux r cs ci (cs.size + 1) 0

/-- Python `re.match`: anchored at the start. -/
def reMatchStart (r : Re) (s : String) (ci : Bool := false) : Option RMatch :=
  reMatchAt r s.toList.toArray ci 0

/-- Substring of `s` by character offsets. -/
def sliceStr (s : String) (a b : Nat) : String :=
  String.mk ((s.toList.drop a).take (b - a))

/-- `m.group(n)`: the most recent capture of group `n`, if it participated. -/
def RMatch.groupStr (m : RMatch) (s : String) (n : Nat) : Option String :=
  match m.caps.find? (fun c => c.1 = n) with
  | some (_, a, b) => some (sliceStr s a b)
  | none => none

/-- `re.sub(pattern, repl, s)` with a constant replacement: replace every
non-overlapping match, advancing past empty matches as CPython does. -/
def reSubAux (r : Re) (repl : String) (cs : Array Char) (ci : Bool) :
    Nat → Nat → List Char → List Char
  | 0, i, acc => acc ++ (cs.toList.drop i)
  | fuel + 1, i, acc =>
      if i > cs.size then acc
      else match reSearchAux r cs ci (cs.size + 1 - i) i with
      | none => acc ++ (cs.toList.drop i)
      | some m =>
          let acc2 := acc ++ ((cs.toList.drop i).take (m.ms - i)) ++ repl.toList
          if m.me > m.ms then
            reSubAux r repl cs ci fuel m.me acc2
          else if m.me < cs.size then
            reSubAux r repl cs ci fuel (m.me + 1)
              (acc2 ++ [cs.toList.getD m.me ' '])
          else acc2

def reSub (r : Re) (repl : String) (s : String) (ci : Bool := false) : String :=
  let cs := s.toList.toArray
  String.mk (reSubAux r repl cs ci (cs.size + 1) 0 [])

/-- `re.findall` for patterns without groups: the matched substrings. -/
def reFindAllAux (r : Re) (cs : Array Char) (ci : Bool) (s : String) :
    Nat → Nat → List String
  | 0, _ => []
  | fuel + 1, i =>
      if i > cs.size then []
      else match reSearchAux r cs ci (cs.size + 1 - i) i with
      | none => []
      | some m =>
          sliceStr s m.ms m.me ::
            (if m.me > m.ms then reFindAllAux r cs ci s fuel m.me
             else reFindAllAux r cs ci s fuel (m.me + 1))

def reFindAll (r : Re) (s : String) (ci : Bool := false) : List String :=
  let cs := s.toList.toArray
  reFindAllAux r cs ci s (cs.size + 1) 0

/-! ### Character classes used by the sources -/

def clsLowerAlnumSpaceDashSlash (c : Char) : Bool :=
  (('a' ≤ c && c ≤ 'z') || c.isDigit || c = ' ' || c = '-' || c = '/')

def clsLowerAlnumUnderDash (c : Char) : Bool :=
  (('a' ≤ c && c ≤ 'z') || c.isDigit || c = '_' || c = '-')

def clsLowerAlpha (c : Char) : Bool := 'a' ≤ c && c ≤ 'z'

def clsDigit (c : Char) : Bool := c.isDigit

def clsNotLowerAlnum (c : Char) : Bool := !(('a' ≤ c && c ≤ 'z') || c.isDigit)

def clsSpace (c : Char) : Bool := pySpace c

def clsPunctTail (c : Char) : Bool := c = '.' || c = ',' || c = '!' || c = '?'

/-- `\s+` -/
def reSpaces : Re := Re.plus true (Re.cls clsSpace)

/-- `\s*` -/
def reSpacesOpt : Re := Re.star true (Re.cls clsSpace)

/-! ## `src/domain/canonicalize.py` — CanonicalizeService -/

namespace CanonicalizeService

/-- `canonicalize(name)`: lowercase, strip, collapse whitespace. -/
def canonicalize (name : String) : String :=
  String.mk (joinWords (wsplit (lowerL (stripL name.toList))))

/-- Per-token rule of `normalize_for_match`. -/
def forMatchToken (tok : String) : String :=
  if tok.length > 4 && pyEndsWith tok "ies" then dropRightStr tok 3 ++ "y"
  else if tok.length > 3 && pyEndsWith tok "es" then dropRightStr tok 2
  else if tok.length > 3 && pyEndsWith tok "s" then dropRightStr tok 1
  else tok

/-- `normalize_for_match(text)`. -/
def normalize_for_match (text : String) : String :=
  let base := canonicalize text
  joinSpace ((pySplit base).map forMatchToken)

/-- The leading articles/quantifiers stripped by `_strip_leading_articles`,
in source order. -/
def articles : List String :=
  ["a ", "an ", "the ", "some ", "any ", "another ", "additional ", "extra "]

/-- `_strip_leading_articles(text)`: drop the first matching leading
article (checked case-insensitively) and re-strip. -/
def strip_leading_articles (text : String) : String :=
  let t := pyStrip text
  let lowers := pyLower t
  match articles.find? (fun art => pyStartsWith lowers art) with
  | some art => pyStrip (String.mk (t.toList.drop art.length))
  | none => t

/-- The pattern `^(?:\w+\s+)?(?:piece|pieces|bunch|pack|set)\s+of\s+(.+)$`
of `_collapse_of_phrases`. -/
def collapseRe : Re :=
  Re.seq Re.bos <|
  Re.seq (Re.opt (Re.seq (Re.plus true (Re.cls wordChar)) reSpaces)) <|
  Re.seq (Re.strAlt ["piece", "pieces", "bunch", "pack", "set"]) <|
  Re.seq reSpaces <|
  Re.seq (Re.str "of") <|
  Re.seq reSpaces <|
  Re.seq (Re.group 1 (Re.plus true Re.anyc)) Re.eos

/-- `_collapse_of_phrases(text)`: "pieces of candy" → "candy". -/
def collapse_of_phrases (text : String) : String :=
  let t := pyStrip text
  match reMatchStart collapseRe t true with
  | some m =>
      match m.groupStr t 1 with
      | some g => pyStrip g
      | none => t
  | none => t

/-- Python `str.isupper()` (ASCII): at least one cased character and all
cased characters uppercase. -/
def pyIsUpper (s : String) : Bool :=
  let cased := s.toList.filter Char.isAlpha
  !cased.isEmpty && cased.all (fun c => c.toUpper = c)

/-- The suffix table of `_singularize_token`'s `-es` loop. -/
def esSuffixes : List String := ["ses", "xes", "zes", "ches", "shes"]

/-- The suffix rules of `_singularize_token` (no acronym handling). -/
def singularizeCore (tok : String) : String :=
  if tok.length > 4 && pyEndsWith tok "ies" then dropRightStr tok 3 ++ "y"
  else
    match esSuffixes.find? (fun suf => pyEndsWith tok suf) with
    | some _ => dropRightStr tok 2
    | none =>
        if pyEndsWith tok "s" && !pyEndsWith tok "ss" && tok.length > 3 then
          dropRightStr tok 1
        else tok

/-- `_singularize_token(token, original_token)`: preserve acronyms like
"TVs" → "TV" when the original token is given, else apply the suffix
rules. -/
def singularize_token (token : String) (original_token : Option String := none) :
    String :=
  match original_token with
  | some orig =>
      if strTruthy orig then
        if orig.length ≥ 2 && pyIsUpper (String.mk orig.toList.dropLast)
            && ((orig.toList.getLast?.map Char.toLower) = some 's') then
          String.mk orig.toList.dropLast
        else singularizeCore token
      else singularizeCore token
  | none => singularizeCore token

/-- `normalize_to_singular(name)`: strip articles, collapse "of" phrases,
canonicalize, singularize the final token. -/
def normalize_to_singular (name : String) : String :=
  let base := strip_leading_articles name
  let base := collapse_of_phrases base
  let base := canonicalize base
  let tokens := pySplit base
  match tokens.getLast? with
  | none => base
  | some last =>
      joinSpace (tokens.set (tokens.length - 1) (singularizeCore last))

/-- `normalize_to_singular_display(name)`: same, preserving uppercase
casing of source tokens (acronyms). -/
def normalize_to_singular_display (name : String) : String :=
  let original_tokens := pySplit (pyStrip name)
  let working := strip_leading_articles name
  let working := collapse_of_phrases working
  let base := canonicalize working
  let tokens := pySplit base
  match tokens.getLast? with
  | none => pyStrip working
  | some last =>
      let last_idx := tokens.length - 1
      let orig_last := original_tokens.get? last_idx
      let tokens := tokens.set last_idx (singularize_token last orig_last)
      joinSpace (tokens.enum.map (fun (i, tok) =>
        let orig := (original_tokens.get? i).getD tok
        if pyIsUpper orig then pyUpper tok else tok))

end CanonicalizeService

/-! ## JSON values (results of `json.loads` on collaborator replies) -/

/-- A decoded JSON value. `int`/`float` are separated because the sources
test `isinstance(x, int)`. -/
inductive Json where
  | null : Json
  | bool : Bool → Json
  | int : Int → Json
  | float : ℚ → Json
  | str : String → Json
  | arr : List Json → Json
  | obj : List (String × Json) → Json
deriving BEq

namespace Json

/-- Python truthiness. -/
def truthy : Json → Bool
  | null => false
  | bool b => b
  | int n => n ≠ 0
  | float q => q ≠ 0
  | str s => strTruthy s
  | arr xs => !xs.isEmpty
  | obj kvs => !kvs.isEmpty

/-- `d.get(k)` on a decoded JSON object (`None` when absent). -/
def dictGet (kvs : List (String × Json)) (k : String) : Json :=
  match kvs.find? (fun kv => kv.1 = k) with
  | some kv => kv.2
  | none => null

/-- Python `repr` of a string (used inside prompts; ASCII contents). -/
def pyReprStr (s : String) : String :=
  "'" ++ String.mk (s.toList.foldr (fun c acc =>
    if c = '\'' || c = '\\' then '\\' :: c :: acc else c :: acc) []) ++ "'"

mutual

/-- Python `repr` of a decoded JSON value (strings get quotes; `float`
rendering is approximated by the rational's string form — floats never
reach a claim-relevant position). -/
def pyRepr : Json → String
  | str s => pyReprStr s
  | null => "None"
  | bool b => if b then "True" else "False"
  | int n => toString n
  | float q => toString q
  | arr xs => "[" ++ pyReprList xs ++ "]"
  | obj kvs => "\x7b" ++ pyReprKVs kvs ++ "\x7d"

/-- Comma-joined `repr`s of array elements. -/
def pyReprList : List Json → String
  | [] => ""
  | [x] => pyRepr x
  | x :: rest => pyRepr x ++ ", " ++ pyReprList rest

/-- Comma-joined `repr`s of object entries. -/
def pyReprKVs : List (String × Json) → String
  | [] => ""
  | [kv] => pyReprStr kv.1 ++ ": " ++ pyRepr kv.2
  | kv :: rest => pyReprStr kv.1 ++ ": " ++ pyRepr kv.2 ++ ", " ++ pyReprKVs rest

end

/-- Python `str()` of a decoded JSON value (like `repr` but bare for
strings). -/
def pyStr : Json → String
  | str s => s
  | j => pyRepr j

end Json

/-! ## `src/domain/models.py` — Item, Box -/

structure Item where
  id : String
  name : String
  canonical_name : String
  quantity : Int
  box_id : String
deriving DecidableEq, Repr

structure Box where
  id : String
  name : String
deriving DecidableEq, Repr

/-! ## The external item/box store (spec section 6 contract)

`AirtableClient` is HTTP plumbing around the store collaborator; its
observable contract (list/create/update/move/delete with store-assigned
identity) is modelled as a state record. -/

structure Store where
  boxes : List Box
  items : List Item
  nextId : Nat
deriving DecidableEq, Repr

namespace Store

def list_boxes (s : Store) : List Box := s.boxes

def list_items (s : Store) : List Item := s.items

/-- Store-assigned record identity. -/
def freshId (s : Store) : String := "rec" ++ toString s.nextId

def create_box (s : Store) (name : String) : Box × Store :=
  let b : Box := ⟨s.freshId, name⟩
  (b, { s with boxes := s.boxes ++ [b], nextId := s.nextId + 1 })

def delete_box (s : Store) (box_id : String) : Bool × Store :=
  (s.boxes.any (fun b => b.id = box_id),
   { s with boxes := s.boxes.filter (fun b => b.id ≠ box_id) })

def add_item (s : Store) (name canonical : String) (quantity : Int)
    (box_id : String) : Item × Store :=
  let it : Item := ⟨s.freshId, name, canonical, quantity, box_id⟩
  (it, { s with items := s.items ++ [it], nextId := s.nextId + 1 })

def update_item_quantity (s : Store) (item_id : String) (new_qty : Int) :
    Option Item × Store :=
  match s.items.find? (fun it => it.id = item_id) with
  | some it =>
      let it2 := { it with quantity := new_qty }
      (some it2,
       { s with items := s.items.map (fun j => if j.id = item_id then it2 else j) })
  | none => (none, s)

def move_item_to_box (s : Store) (item_id new_box_id : String) :
    Option Item × Store :=
  match s.items.find? (fun it => it.id = item_id) with
  | some it =>
      let it2 := { it with box_id := new_box_id }
      (some it2,
       { s with items := s.items.map (fun j => if j.id = item_id then it2 else j) })
  | none => (none, s)

def delete_item (s : Store) (item_id : String) : Bool × Store :=
  (s.items.any (fun it => it.id = item_id),
   { s with items := s.items.filter (fun it => it.id ≠ item_id) })

end Store

/-! ## The similarity index (spec section 6 contract) and search env -/

/-- Tracked contents of the vector index (`upsert`/`delete` effects). -/
structure IndexEntry where
  id : String
  name : String
  canonical_name : String
  box_id : String
  box_name : String
deriving DecidableEq, Repr

abbrev IndexState := List IndexEntry

def upsertEntry (idx : IndexState) (e : IndexEntry) : IndexState :=
  if idx.any (fun x => x.id = e.id) then
    idx.map (fun x => if x.id = e.id then e else x)
  else idx ++ [e]

def deleteEntry (idx : IndexState) (id : String) : IndexState :=
  idx.filter (fun x => x.id ≠ id)

/-- An opaque embedding vector. -/
abbrev Vec := List ℚ

/-- One raw match returned by the index `query` collaborator
(id, score, metadata). -/
structure RawMatch where
  id : String
  score : ℚ
  name : String
  canonical_name : String
  box_id : String
  box_name : String
deriving DecidableEq, Repr

/-- The external collaborators, as oracles:
`embed` is `OpenAIEmbedder.embed_texts([t])[0]`; `query` is
`PineconeIndex.query`; `close` is `difflib.get_close_matches(w, ps, n=1, c)`
(its head, if any); `chat` is `GptService.chat` (`.error` models a raised
exception); `parseJson` is `json.loads` (`none` models a decode error);
`transcripts` is the stream of transcription results. -/
structure Env where
  embed : String → Vec
  query : Vec → Nat → List RawMatch
  close : String → List String → ℚ → Option String
  chat : String → Except String String
  parseJson : String → Option Json
  transcripts : Nat → String

/-- Whole-system state threaded through the services: the store, the
tracked index contents, and how many transcripts were consumed. -/
structure World where
  store : Store
  index : IndexState
  tcount : Nat
deriving DecidableEq, Repr

/-! ## `src/vector/search.py` — SemanticSearch -/

namespace SemanticSearch

def THRESHOLD : ℚ := mkRat 80 100

/-- Stable insert keeping scores descending (earlier elements stay ahead
of equal scores, matching Python's stable `sort(reverse=True)`). -/
def insertDesc (x : Item × ℚ) : List (Item × ℚ) → List (Item × ℚ)
  | [] => [x]
  | y :: ys => if y.2 ≤ x.2 then x :: y :: ys else y :: insertDesc x ys

/-- `matches.sort(key=score, reverse=True)` (stable). -/
def sortDesc : List (Item × ℚ) → List (Item × ℚ)
  | [] => []
  | x :: xs => insertDesc x (sortDesc xs)

/-- External calls issued by one `top_k` run. -/
inductive SearchCall where
  | embed : String → SearchCall
  | query : Nat → SearchCall
deriving DecidableEq, Repr

/-- `top_k(query_text, k)` together with the list of collaborator calls it
issues (empty for a blank query: the guard precedes both calls). -/
def top_kE (env : Env) (query_text : String) (k : Nat) :
    List (Item × ℚ) × List SearchCall :=
  if !strTruthy (pyStrip query_text) then ([], [])
  else
    let canon := CanonicalizeService.canonicalize query_text
    let qvec := env.embed canon
    let ms := env.query qvec (max 1 k)
    (sortDesc (ms.map (fun m => (⟨m.id, m.name, m.canonical_name, 0, m.box_id⟩, m.score))),
     [SearchCall.embed canon, SearchCall.query (max 1 k)])

def top_k (env : Env) (query_text : String) (k : Nat := 3) : List (Item × ℚ) :=
  (top_kE env query_text k).1

/-- `find_best_match(query_text, top_k_suggestions)` with its collaborator
calls. -/
def find_best_matchE (env : Env) (query_text : String)
    (top_k_suggestions : Nat := 3) :
    (Option Item × ℚ × List (Item × ℚ)) × List SearchCall :=
  let mc := top_kE env query_text (top_k_suggestions + 1)
  let ms := mc.1
  let calls := mc.2
  let best :=
    match ms with
    | [] => (none, (0 : ℚ), ([] : List (Item × ℚ)))
    | (it, sc) :: _ =>
        if THRESHOLD ≤ sc then
          (some it, sc, (ms.drop 1).take top_k_suggestions)
        else
          (some it, sc, ms.take top_k_suggestions)
  if best.2.1 < THRESHOLD then ((none, best.2.1, best.2.2), calls)
  else (best, calls)

def find_best_match (env : Env) (query_text : String)
    (top_k_suggestions : Nat := 3) : Option Item × ℚ × List (Item × ℚ) :=
  (find_best_matchE env query_text top_k_suggestions).1

/-- `find_all_above_threshold(query_text, k, margin)`. -/
def find_all_above_threshold (env : Env) (query_text : String)
    (k : Nat := 10) (margin : ℚ := 0) : List (Item × ℚ) :=
  (top_k env query_text k).filter (fun p => THRESHOLD + margin ≤ p.2)

/-- `index_item(item, box_name)`: embed the canonical name, upsert id,
vector and metadata. -/
def index_item (env : Env) (w : World) (item : Item)
    (box_name : Option String := none) : World :=
  let _vec := env.embed item.canonical_name
  let bn := match box_name with
    | some b => if strTruthy b then b else ""
    | none => ""
  { w with index := upsertEntry w.index ⟨item.id, item.name, item.canonical_name, item.box_id, bn⟩ }

/-- `delete_item(item_id)` on the index. -/
def delete_item (w : World) (item_id : String) : World :=
  { w with index := deleteEntry w.index item_id }

end SemanticSearch

/-! ## `src/services/inventory.py` — InventoryService

Fallible operations return `Except String` (the raised `ValueError`
message); every raise in the source happens before any mutation, so an
error leaves the entry `World` to the catching caller. -/

namespace InventoryService

open CanonicalizeService SemanticSearch

def _get_item_by_id (w : World) (item_id : String) : Option Item :=
  w.store.list_items.find? (fun it => it.id = item_id)

/-- The `spoken_to_letter` table of `_find_box_by_name`. -/
def spoken_to_letter : List (String × String) :=
  [("a", "a"), ("ay", "a"),
   ("b", "b"), ("be", "b"), ("bee", "b"),
   ("c", "c"), ("cee", "c"), ("see", "c"), ("sea", "c"),
   ("d", "d"), ("dee", "d"),
   ("e", "e"), ("ee", "e"),
   ("f", "f"), ("ef", "f"),
   ("g", "g"), ("gee", "g"),
   ("h", "h"), ("aitch", "h"),
   ("i", "i"),
   ("j", "j"), ("jay", "j"),
   ("k", "k"), ("kay", "k"),
   ("l", "l"), ("el", "l"), ("ell", "l"),
   ("m", "m"), ("em", "m"),
   ("n", "n"), ("en", "n"),
   ("o", "o"),
   ("p", "p"), ("pee", "p"),
   ("q", "q"), ("cue", "q"), ("queue", "q"),
   ("r", "r"), ("ar", "r"), ("are", "r"),
   ("s", "s"), ("ess", "s"),
   ("t", "t"), ("tee", "t"),
   ("u", "u"), ("you", "u"),
   ("v", "v"), ("vee", "v"),
   ("w", "w"), ("double u", "w"),
   ("x", "x"),
   ("y", "y"), ("why", "y"),
   ("z", "z"), ("zee", "z"), ("zed", "z")]

/-- `_find_box_by_name(box_name)`: strip punctuation and a leading
"box ", map spoken letters, then exact / single-letter / fuzzy match. -/
def _find_box_by_name (env : Env) (w : World) (box_name : String) :
    Option Box :=
  let target_raw := pyStrip box_name
  let target := pyLower (pyStrip (stripTrailingPunct target_raw))
  let target :=
    if pyStartsWith target "box " then pyStrip (String.mk (target.toList.drop 4))
    else target
  let target :=
    match spoken_to_letter.find? (fun kv => kv.1 = target) with
    | some kv => kv.2
    | none => target
  let boxes := w.store.list_boxes
  -- dict comprehension: for duplicate keys the LAST box wins
  let name_to_box := fun (key : String) =>
    boxes.reverse.find? (fun b => pyLower (pyStrip b.name) = key)
  match name_to_box target with
  | some b => some b
  | none =>
    match
      (if target.toList.length = 1 then
        boxes.find? (fun b => pyLower (pyStrip b.name) = target)
      else none) with
    | some b => some b
    | none =>
      let existing_names := boxes.map (fun b => pyStrip b.name)
      let cutoff : ℚ :=
        if (existing_names.filter strTruthy).all (fun n => n.toList.length = 1)
        then mkRat 1 2 else mkRat 8 10
      match env.close target (existing_names.map pyLower) cutoff with
      | some cand => name_to_box cand
      | none => none

def _get_box_name_by_id (w : World) (box_id : String) : String :=
  match w.store.list_boxes.find? (fun b => b.id = box_id) with
  | some b => b.name
  | none => "Unknown Box"

/-- `add_box(box_name)`: idempotent by case-insensitive name; creates
with uppercased display name. -/
def add_box (w : World) (box_name : String) : Box × World :=
  let target := pyStrip box_name
  match w.store.list_boxes.find?
      (fun b => pyLower (pyStrip b.name) = pyLower target) with
  | some b => (b, w)
  | none =>
      let bs := w.store.create_box (pyUpper target)
      (bs.1, { w with store := bs.2 })

/-- `remove_box_if_empty(box_name)`: `False` when any item links to the
box, else delete. -/
def remove_box_if_empty (env : Env) (w : World) (box_name : String) :
    Except String (Bool × World) :=
  match _find_box_by_name env w box_name with
  | none => .error ("Box '" ++ box_name ++ "' not found")
  | some box =>
      if w.store.list_items.any (fun it => it.box_id = box.id) then
        .ok (false, w)
      else
        let rs := w.store.delete_box box.id
        .ok (rs.1, { w with store := rs.2 })

/-- One step of `clear_box_items`'s loop over the item snapshot. -/
def clearStep (boxId : String) (acc : Int × World) (it : Item) : Int × World :=
  if it.box_id = boxId then
    let rs := acc.2.store.delete_item it.id
    if rs.1 then
      let w2 := SemanticSearch.delete_item { acc.2 with store := rs.2 } it.id
      (acc.1 + 1, w2)
    else (acc.1, { acc.2 with store := rs.2 })
  else acc

/-- `clear_box_items(box_name)`: delete every item row linked to the box
(and its index entry), returning the count. -/
def clear_box_items (env : Env) (w : World) (box_name : String) :
    Except String (Int × World) :=
  match _find_box_by_name env w box_name with
  | none => .error ("Box '" ++ box_name ++ "' not found")
  | some box =>
      .ok (w.store.list_items.foldl (clearStep box.id) (0, w))

/-- `add_item(name, quantity, box_name)`: semantic-merge into an existing
item anywhere in the inventory when the best score clears the threshold,
else create in the requested box (raising if that box is unknown).
Returns the item and the new-item flag. -/
def add_item (env : Env) (w : World) (name : String) (quantity : Int)
    (box_name : String) : Except String ((Item × Bool) × World) :=
  let canonical := normalize_to_singular name
  let display_name := normalize_to_singular_display name
  let r := find_best_match env canonical
  let addNew : Except String ((Item × Bool) × World) :=
    match _find_box_by_name env w box_name with
    | none => .error ("Box '" ++ box_name ++ "' not found for new item.")
    | some box =>
        let is_ := w.store.add_item display_name canonical quantity box.id
        let w2 := { w with store := is_.2 }
        let w3 := index_item env w2 is_.1 (some box.name)
        .ok ((is_.1, true), w3)
  match r.1 with
  | some existing_match =>
      if THRESHOLD ≤ r.2.1 then
        match _get_item_by_id w existing_match.id with
        | some full_item =>
            let new_qty := full_item.quantity + quantity
            let us := w.store.update_item_quantity full_item.id new_qty
            let w2 := { w with store := us.2 }
            let final := us.1.getD full_item
            let w3 := index_item env w2 final
              (some (_get_box_name_by_id w2 full_item.box_id))
            .ok ((final, false), w3)
        | none => addNew
      else addNew
  | none => addNew

def find_item_by_exact_name (w : World) (name : String) : Option Item :=
  let target := pyLower (pyStrip name)
  w.store.list_items.find? (fun it => pyLower (pyStrip it.name) = target)

/-- `find_item_by_semantic(name)`. -/
def find_item_by_semantic (env : Env) (name : String) :
    Option Item × ℚ × List (Item × ℚ) :=
  find_best_match env (normalize_to_singular name)

/-- The shared candidate step of `remove_item`/`remove_item_all`/
`move_item`: a passed `resolved_item` short-circuits semantic search
(score 1.0, no suggestions). -/
def resolveCand (env : Env) (name : String) (resolved_item : Option Item) :
    Option Item × ℚ × List (Item × ℚ) :=
  match resolved_item with
  | some r => (some r, (1 : ℚ), ([] : List (Item × ℚ)))
  | none => find_item_by_semantic env name

/-- Candidate resolution shared by `remove_item`/`remove_item_all`/
`move_item`: concrete Airtable row for a semantic candidate (falling back
to exact-name lookup only when no `resolved_item` was passed). -/
def resolveConcrete (w : World) (cand : Item) (resolved : Bool) : Option Item :=
  match _get_item_by_id w cand.id with
  | some it => some it
  | none => if resolved then none else find_item_by_exact_name w cand.name

/-- `remove_item(name, quantity, resolved_item)`. -/
def remove_item (env : Env) (w : World) (name : String) (quantity : Int)
    (resolved_item : Option Item := none) :
    (Option Item × List (Item × ℚ)) × World :=
  let csr := resolveCand env name resolved_item
  match csr.1 with
  | none => ((none, csr.2.2), w)
  | some cand =>
      match resolveConcrete w cand resolved_item.isSome with
      | none => ((none, csr.2.2), w)
      | some concrete =>
          let new_qty := concrete.quantity - quantity
          if new_qty ≤ 0 then
            let rs := w.store.delete_item concrete.id
            let w2 := SemanticSearch.delete_item { w with store := rs.2 } concrete.id
            ((some ⟨concrete.id, concrete.name, concrete.canonical_name, 0,
               concrete.box_id⟩, []), w2)
          else
            let us := w.store.update_item_quantity concrete.id new_qty
            ((us.1, []), { w with store := us.2 })

/-- `remove_item_all(name, resolved_item)`. -/
def remove_item_all (env : Env) (w : World) (name : String)
    (resolved_item : Option Item := none) :
    (Option Item × List (Item × ℚ)) × World :=
  let csr := resolveCand env name resolved_item
  match csr.1 with
  | none => ((none, csr.2.2), w)
  | some cand =>
      match resolveConcrete w cand resolved_item.isSome with
      | none => ((none, csr.2.2), w)
      | some concrete =>
          let rs := w.store.delete_item concrete.id
          let w2 := SemanticSearch.delete_item { w with store := rs.2 } concrete.id
          ((some ⟨concrete.id, concrete.name, concrete.canonical_name, 0,
             concrete.box_id⟩, []), w2)

/-- `move_item(item_name, to_box_name, from_box_name, resolved_item)`.
Raises when the destination box is unknown; no-op when the item already
sits in the destination. -/
def move_item (env : Env) (w : World) (item_name to_box_name : String)
    (from_box_name : Option String := none)
    (resolved_item : Option Item := none) :
    Except String ((Option Item × List (Item × ℚ)) × World) :=
  let csr := resolveCand env item_name resolved_item
  match _find_box_by_name env w to_box_name with
  | none => .error ("Destination box '" ++ to_box_name ++ "' not found")
  | some dest_box =>
    match csr.1 with
    | none => .ok ((none, csr.2.2), w)
    | some cand =>
      match resolveConcrete w cand resolved_item.isSome with
      | none => .ok ((none, csr.2.2), w)
      | some concrete =>
        -- enforce the optional caller-supplied source box
        let fromOk :=
          match from_box_name with
          | some fb =>
              if strTruthy fb then
                match _find_box_by_name env w fb with
                | some src_box => concrete.box_id = src_box.id
                | none => false
              else true
          | none => true
        if !fromOk then .ok ((none, csr.2.2), w)
        else if concrete.box_id = dest_box.id then
          .ok ((some concrete, []), w)
        else
          let us := w.store.move_item_to_box concrete.id dest_box.id
          match us.1 with
          | none => .ok ((none, csr.2.2), { w with store := us.2 })
          | some updated =>
              let w2 := { w with store := us.2 }
              -- debug best-match queries are read-only; index the move
              let w3 := index_item env w2 updated (some dest_box.name)
              .ok ((some updated, []), w3)

/-- One step of `move_all_items_between_boxes`'s loop. -/
def moveAllStep (env : Env) (destId destName : String)
    (acc : List Item × World) (it : Item) : List Item × World :=
  let us := acc.2.store.move_item_to_box it.id destId
  match us.1 with
  | none => (acc.1, { acc.2 with store := us.2 })
  | some updated =>
      let w2 := index_item env { acc.2 with store := us.2 } updated (some destName)
      (acc.1 ++ [updated], w2)

/-- `move_all_items_between_boxes(from_box_name, to_box_name)`. -/
def move_all_items_between_boxes (env : Env) (w : World)
    (from_box_name to_box_name : String) :
    Except String (List Item × World) :=
  match _find_box_by_name env w from_box_name with
  | none => .error ("Source box '" ++ from_box_name ++ "' not found")
  | some src_box =>
    match _find_box_by_name env w to_box_name with
    | none => .error ("Destination box '" ++ to_box_name ++ "' not found")
    | some dest_box =>
      if src_box.id = dest_box.id then .ok ([], w)
      else
        let items_to_move := w.store.list_items.filter
          (fun it => it.box_id = src_box.id)
        .ok (items_to_move.foldl (moveAllStep env dest_box.id dest_box.name) ([], w))

/-- `resolve_semantic_candidate_to_store_item(cand)`. -/
def resolve_semantic_candidate_to_store_item (w : World) (cand : Item) :
    Option Item :=
  match _get_item_by_id w cand.id with
  | some exact => some exact
  | none =>
      let target_canon := normalize_for_match
        (if strTruthy cand.canonical_name then cand.canonical_name else cand.name)
      w.store.list_items.find? (fun it =>
        it.box_id = cand.box_id &&
        (normalize_for_match it.canonical_name = target_canon ||
         normalize_for_match it.name = target_canon))

/-- `resolve_semantic_to_store_item(name)`. -/
def resolve_semantic_to_store_item (env : Env) (w : World) (name : String) :
    Option Item :=
  match (find_item_by_semantic env name).1 with
  | none => none
  | some cand => resolve_semantic_candidate_to_store_item w cand

end InventoryService

/-! ## Op drafts (the dict shape produced by the NLU layer)

One record stands in for the Python dicts flowing through the pipeline:
absent keys and `None` are both `Json.null` (`dict.get` cannot tell them
apart), and `resolved_item` carries the concrete store record when a
disambiguation selected one. -/

structure OpD where
  intent : Json := Json.null
  object_name : Json := Json.null
  quantity : Json := Json.null
  to_box : Json := Json.null
  box_name : Json := Json.null
  from_box : Json := Json.null
  remove_all : Json := Json.null
  everything : Json := Json.null
  resolved_item : Option Item := none

/-- Python `a or b` on decoded values. -/
def jor (a b : Json) : Json := if a.truthy then a else b

/-! ## `src/nlu/parse_intent.py` — IntentParser -/

namespace ParseIntent

open Re

/-- `[a-z0-9 dash slash]` -/
def itemChars : Re := cls clsLowerAlnumSpaceDashSlash

/-- `[a-z0-9_-]` -/
def boxChars : Re := cls clsLowerAlnumUnderDash

/-- The `spoken_to_letter` table of `_normalize_box_name` (it differs
from the inventory one: no "sea", no "ee"). -/
def spoken_to_letter : List (String × String) :=
  [("a", "a"), ("ay", "a"),
   ("b", "b"), ("be", "b"), ("bee", "b"),
   ("c", "c"), ("see", "c"), ("cee", "c"),
   ("d", "d"), ("dee", "d"),
   ("e", "e"),
   ("f", "f"), ("ef", "f"),
   ("g", "g"), ("gee", "g"),
   ("h", "h"), ("aitch", "h"),
   ("i", "i"),
   ("j", "j"), ("jay", "j"),
   ("k", "k"), ("kay", "k"),
   ("l", "l"), ("el", "l"), ("ell", "l"),
   ("m", "m"), ("em", "m"),
   ("n", "n"), ("en", "n"),
   ("o", "o"),
   ("p", "p"), ("pee", "p"),
   ("q", "q"), ("queue", "q"), ("cue", "q"),
   ("r", "r"), ("ar", "r"), ("are", "r"),
   ("s", "s"), ("ess", "s"),
   ("t", "t"), ("tee", "t"),
   ("u", "u"), ("you", "u"),
   ("v", "v"), ("vee", "v"),
   ("w", "w"), ("double u", "w"),
   ("x", "x"),
   ("y", "y"), ("why", "y"),
   ("z", "z"), ("zee", "z"), ("zed", "z")]

/-- `_normalize_box_name(name)`. -/
def _normalize_box_name (name : String) : String :=
  let n := pyLower (pyStrip name)
  let n := stripTrailingPunct n
  let n := if pyStartsWith n "box " then pyStrip (String.mk (n.toList.drop 4)) else n
  match spoken_to_letter.find? (fun kv => kv.1 = n) with
  | some kv => kv.2
  | none => n

/-- The determiner tuple of `_normalize_item`, in source order. -/
def itemArticles : List String :=
  ["a ", "an ", "the ", "some ", "any ", "more ", "another ", "additional ",
   "extra "]

/-- `^(?:\d+\s+)?(?:sticks|pieces|…)\s+of\s+` -/
def measureOfRe : Re :=
  seq bos <|
  seq (opt (seq (plus true (cls clsDigit)) reSpaces)) <|
  seq (strAlt ["sticks", "pieces", "bottles", "packs", "boxes", "bags",
    "rolls", "sets", "cups", "slices", "loaves", "cans", "bunches", "pairs",
    "bars", "tubes", "tubs", "cartons", "cases", "batches"]) <|
  seq reSpaces <| seq (str "of") reSpaces

/-- `^(?:more|extra|additional)\s+` -/
def moreExtraRe : Re :=
  seq bos (seq (strAlt ["more", "extra", "additional"]) reSpaces)

/-- `\b(items|pieces|units)$` -/
def trailingDescRe : Re :=
  seq wordB (seq (group 1 (strAlt ["items", "pieces", "units"])) eos)

/-- The `irregulars` table of `_normalize_item`. -/
def irregulars : List (String × String) :=
  [("children", "child"), ("men", "man"), ("women", "woman"),
   ("people", "person"), ("teeth", "tooth"), ("feet", "foot"),
   ("mice", "mouse"), ("geese", "goose"), ("hangers", "hanger"),
   ("coat hangers", "coat hanger")]

/-- `_normalize_item(name)`: lowercase, strip punctuation, determiners and
measure phrases, then lightweight singularization of the last token. -/
def _normalize_item (name : String) : String :=
  let name := pyLower (pyStrip name)
  let name := stripTrailingPunct name
  let name :=
    match itemArticles.find? (fun art => pyStartsWith name art) with
    | some art => String.mk (name.toList.drop art.length)
    | none => name
  let name := reSub measureOfRe "" name
  let name := reSub moreExtraRe "" name
  let name := reSub trailingDescRe "" name
  let name := pyStrip name
  let name :=
    match irregulars.find? (fun kv => kv.1 = name) with
    | some kv => kv.2
    | none =>
        let tokens := pySplit name
        match tokens.getLast? with
        | none => name
        | some last =>
            let last :=
              if pyEndsWith last "ies" then dropRightStr last 3 ++ "y"
              else if pyEndsWith last "ses" then dropRightStr last 2
              else if pyEndsWith last "xes" || pyEndsWith last "zes"
                  || pyEndsWith last "ches" || pyEndsWith last "shes" then
                dropRightStr last 2
              else if pyEndsWith last "s" && !pyEndsWith last "ss" then
                dropRightStr last 1
              else last
            joinSpace (tokens.set (tokens.length - 1) last)
  pyStrip (joinSpace (pySplit name))

/-- The `word_map` of `_qty_from_token`. -/
def qtyWordMap : List (String × Nat) :=
  [("one", 1), ("two", 2), ("three", 3), ("four", 4), ("five", 5),
   ("six", 6), ("seven", 7), ("eight", 8), ("nine", 9), ("ten", 10),
   ("a", 1), ("an", 1)]

/-- `_qty_from_token(tok)`: digits or number words to integer strings. -/
def _qty_from_token (tok : Option String) : Option String :=
  match tok with
  | none => none
  | some tok =>
      let tok := pyLower (pyStrip tok)
      if pyIsDigit tok then some tok
      else
        match qtyWordMap.find? (fun kv => kv.1 = tok) with
        | some kv => some (toString kv.2)
        | none => none

/-- `\b(one|a|an|another)\b` -/
def oneAAnotherRe : Re :=
  seq wordB (seq (group 1 (strAlt ["one", "a", "an", "another"])) wordB)

/-- `\b(add|adding|added|put|place|more|another|additional|extra)\b` -/
def addWordsRe : Re :=
  seq wordB (seq (group 1 (strAlt ["add", "adding", "added", "put", "place",
    "more", "another", "additional", "extra"])) wordB)

/-- `\b(remove|removing|removed|take|grab|less|fewer)\b` -/
def removeWordsRe : Re :=
  seq wordB (seq (group 1 (strAlt ["remove", "removing", "removed", "take",
    "grab", "less", "fewer"])) wordB)

/-- `\b(where is|find|do i have)\b` -/
def findWordsRe : Re :=
  seq wordB (seq (group 1 (strAlt ["where is", "find", "do i have"])) wordB)

/-- `\b(move|moving|relocate|relocating)\b` -/
def moveWordsRe : Re :=
  seq wordB (seq (group 1 (strAlt ["move", "moving", "relocate",
    "relocating"])) wordB)

/-- `\ball\b|\beverything\b` -/
def allEverythingRe : Re :=
  alt (seq wordB (seq (str "all") wordB))
      (seq wordB (seq (str "everything") wordB))

/-- `_postprocess(intent, obj, qty, box, to_box, from_box)` with the
lowered utterance `t` in scope. -/
def _postprocess (t : String) (intent obj qty box to_box from_box : Json) :
    OpD :=
  let qty :=
    if (intent == Json.str "ADD" || intent == Json.str "REMOVE")
        && !qty.truthy then
      if (reSearch oneAAnotherRe t).isSome then Json.str "1" else qty
    else qty
  let intent :=
    if !intent.truthy then
      if (reSearch addWordsRe t).isSome then Json.str "ADD"
      else if (reSearch removeWordsRe t).isSome then Json.str "REMOVE"
      else if (reSearch findWordsRe t).isSome then Json.str "FIND"
      else if (reSearch moveWordsRe t).isSome then Json.str "MOVE"
      else intent
    else intent
  let obj :=
    if obj.truthy then Json.str (_normalize_item (Json.pyStr obj))
    else Json.null
  { intent := intent, object_name := obj, quantity := qty,
    box_name := Json.null, to_box := jor to_box box, from_box := from_box }

/-- `(?:move|moving|put|place|relocate|relocating)\s+([a-z0-9 dash slash]+?)\s+(?:from\s+(?:box\s+)?([a-z0-9_-]+)\s+)?(?:to|into|in)\s+(?:box\s+)?([a-z0-9_-]+)` -/
def moveWithDestRe : Re :=
  seq (strAlt ["move", "moving", "put", "place", "relocate", "relocating"]) <|
  seq reSpaces <|
  seq (group 1 (plus false itemChars)) <|
  seq reSpaces <|
  seq (opt (seq (str "from") <| seq reSpaces <|
            seq (opt (seq (str "box") reSpaces)) <|
            seq (group 2 (plus true boxChars)) reSpaces)) <|
  seq (strAlt ["to", "into", "in"]) <|
  seq reSpaces <|
  seq (opt (seq (str "box") reSpaces)) <|
  group 3 (plus true boxChars)

/-- `(?:move|moving|relocate|relocating|put|place)\s+([a-z0-9 dash slash]+?)(?:\s*[\.!?]*)$` -/
def clsDotBangQ (c : Char) : Bool := c = '.' || c = '!' || c = '?'

def moveNoDestRe : Re :=
  seq (strAlt ["move", "moving", "relocate", "relocating", "put", "place"]) <|
  seq reSpaces <|
  seq (group 1 (plus false itemChars)) <|
  seq (seq reSpacesOpt (star true (cls clsDotBangQ))) eos

/-- `(?:add|create|make)\s+(?:a\s+)?(?:new\s+)?box` (shared prefix of the
ADD_BOX rules). -/
def addBoxPrefixRe : Re :=
  seq (strAlt ["add", "create", "make"]) <| seq reSpaces <|
  seq (opt (seq (str "a") reSpaces)) <|
  seq (opt (seq (str "new") reSpaces)) <|
  str "box"

/-- `…box.*?(?:named|called|call(?:\s+it)?)\s+([a-z0-9_-]+)` -/
def addBoxNamedRe : Re :=
  seq addBoxPrefixRe <|
  seq (star false anyc) <|
  seq (alt (str "named")
        (alt (str "called") (seq (str "call") (opt (seq reSpaces (str "it")))))) <|
  seq reSpaces <|
  group 1 (plus true boxChars)

/-- `…box\s+([a-z0-9_-]+)` -/
def addBoxSimpleRe : Re :=
  seq addBoxPrefixRe <| seq reSpaces <| group 1 (plus true boxChars)

/-- `…box\b` -/
def addBoxBareRe : Re := seq addBoxPrefixRe wordB

/-- `(?:remove|delete)\s+(?:the\s+)?box\s+([a-z0-9_-]+)` -/
def removeBoxRe : Re :=
  seq (strAlt ["remove", "delete"]) <| seq reSpaces <|
  seq (opt (seq (str "the") reSpaces)) <|
  seq (str "box") <| seq reSpaces <| group 1 (plus true boxChars)

/-- `(?:remove|removing|delete|clear)\s+(?:(?:all\s+)?(?:the\s+)?items?|everything)\s+(?:from|in|inside)\s+(?:box\s+)?([a-z0-9_-]+)` -/
def clearBoxRe : Re :=
  seq (strAlt ["remove", "removing", "delete", "clear"]) <| seq reSpaces <|
  seq (alt (seq (opt (seq (str "all") reSpaces)) <|
            seq (opt (seq (str "the") reSpaces)) <|
            seq (str "item") (opt (lit 's')))
        (str "everything")) <|
  seq reSpaces <|
  seq (strAlt ["from", "in", "inside"]) <| seq reSpaces <|
  seq (opt (seq (str "box") reSpaces)) <| group 1 (plus true boxChars)

/-- `(?:i\s*'?m\s+)?(?:going\s+to\s+)?(?:remove|removing|clear|delete)[^a-z0-9]+(?:everything|all)\s+(?:from|in|inside)\s+(?:box\s+)?([a-z0-9_-]+)` -/
def clearBoxAltRe : Re :=
  seq (opt (seq (lit 'i') <| seq reSpacesOpt <| seq (opt (lit '\'')) <|
            seq (lit 'm') reSpaces)) <|
  seq (opt (seq (str "going") <| seq reSpaces <| seq (str "to") reSpaces)) <|
  seq (strAlt ["remove", "removing", "clear", "delete"]) <|
  seq (plus true (cls clsNotLowerAlnum)) <|
  seq (strAlt ["everything", "all"]) <| seq reSpaces <|
  seq (strAlt ["from", "in", "inside"]) <| seq reSpaces <|
  seq (opt (seq (str "box") reSpaces)) <| group 1 (plus true boxChars)

/-- `(\d+|one|two|…|ten|a|an|some)` as capture group `n`. -/
def qtyTokenRe (n : Nat) : Re :=
  group n (alt (plus true (cls clsDigit))
    (strAlt ["one", "two", "three", "four", "five", "six", "seven", "eight",
      "nine", "ten", "a", "an", "some"]))

/-- `(?:add(?:ing|ed)?|put|place)` -/
def addVerbRe : Re :=
  alt (seq (str "add") (opt (strAlt ["ing", "ed"]))) (strAlt ["put", "place"])

/-- `…\s+(?:(qty)\s+)?([a-z0-9 dash slash]+?)\s+(?:to|into|in)\s+box\s+([a-z0-9_-]+)` -/
def addWithBoxRe : Re :=
  seq addVerbRe <| seq reSpaces <|
  seq (opt (seq (qtyTokenRe 1) reSpaces)) <|
  seq (group 2 (plus false itemChars)) <| seq reSpaces <|
  seq (strAlt ["to", "into", "in"]) <| seq reSpaces <|
  seq (str "box") <| seq reSpaces <| group 3 (plus true boxChars)

/-- `…\s+(?:(qty)\s+)?([a-z0-9 dash slash]+?)(?:\s*[\.?!]*)$` -/
def addNoBoxRe : Re :=
  seq addVerbRe <| seq reSpaces <|
  seq (opt (seq (qtyTokenRe 1) reSpaces)) <|
  seq (group 2 (plus false itemChars)) <|
  seq (seq reSpacesOpt (star true (cls clsDotBangQ))) eos

/-- `(?:remove|removing|removed|take|grab)\s+all(?:\s+of\s+the)?\s+([a-z0-9 dash slash]+)` -/
def removeAllRuleRe : Re :=
  seq (strAlt ["remove", "removing", "removed", "take", "grab"]) <|
  seq reSpaces <| seq (str "all") <|
  seq (opt (seq reSpaces <| seq (str "of") <| seq reSpaces (str "the"))) <|
  seq reSpaces <| group 1 (plus true itemChars)

/-- `(?:remove(?:ing|ed)?|take|grab)\s+(?:(qty)\s+)?([a-z0-9 dash slash]+)` -/
def removeQtyRe : Re :=
  seq (alt (seq (str "remove") (opt (strAlt ["ing", "ed"])))
        (strAlt ["take", "grab"])) <|
  seq reSpaces <|
  seq (opt (seq (qtyTokenRe 1) reSpaces)) <|
  group 2 (plus true itemChars)

/-- `(?:i\s*(?:am|\'m|’m)\s+)?remove(?:ing|ed)?\s+([a-z0-9 dash slash]+)(?:\s*[\.!?]*)$` -/
def declRemoveRe : Re :=
  seq (opt (seq (lit 'i') <| seq reSpacesOpt <|
            seq (alt (str "am") (alt (str "'m") (str "’m"))) reSpaces)) <|
  seq (str "remove") <| seq (opt (strAlt ["ing", "ed"])) <|
  seq reSpaces <|
  seq (group 1 (plus true itemChars)) <|
  seq (seq reSpacesOpt (star true (cls clsDotBangQ))) eos

/-- `(?:do i have|where is|find)\s+([a-z0-9 dash slash]+)\??` -/
def findRuleRe : Re :=
  seq (strAlt ["do i have", "where is", "find"]) <| seq reSpaces <|
  seq (group 1 (plus true itemChars)) (opt (lit '?'))

/-- The fixed LLM instruction of `parse`'s fallback, with `{text!r}`
appended. -/
def parsePrompt (text : String) : String :=
  "Extract inventory intent as strict JSON with keys: intent(one of ADD,REMOVE,FIND,ADD_BOX,REMOVE_BOX,CLEAR_BOX,MOVE), "
  ++ "object_name(optional string), quantity(optional int), box_name(optional string), remove_all(optional bool), to_box(optional string), from_box(optional string). "
  ++ "Rules:\n"
  ++ "- If the user is naming a box (ADD_BOX), box_name must be the intended name: usually a single letter.\n"
  ++ "- If they say 'box B' or 'call it C', set box_name='B' or 'C' (letter), not words like 'bee'/'see'.\n"
  ++ "- Ignore filler words like 'and', 'then', 'please' as names.\n"
  ++ "- For REMOVE ALL, set remove_all=true.\n"
  ++ "- For object_name, return the core singular item name: strip phrases like 'sticks of', 'pieces of', 'bottles of', and convert common plurals to singular (e.g., 'coat hangers' → 'coat hanger', 'batteries' → 'battery').\n"
  ++ "MOVE rules: item and to_box are required; from_box is optional and should be omitted if not provided; do not hallucinate boxes. "
  ++ "Text: " ++ Json.pyReprStr text

/-- Group `n` of a match against `t`, `""` when absent (groups read this
way always participated). -/
def g (m : RMatch) (t : String) (n : Nat) : String :=
  (m.groupStr t n).getD ""

/-- The LLM fallback at the end of `parse` (everything after the rule
cascade): ask the collaborator, decode defensively. A raised collaborator
exception propagates (`.error`); any decode failure yields the dict
`{"intent": None}` — all fields null. -/
def parseLLMFallback (env : Env) (t text : String) : Except String OpD :=
  match env.chat (parsePrompt text) with
  | .error e => .error e
  | .ok content =>
      match env.parseJson content with
      | some (Json.obj kvs) =>
          let obj0 := Json.dictGet kvs "object_name"
          let objS := _normalize_item
            (Json.pyStr (if obj0.truthy then obj0 else Json.str ""))
          let obj : Json := if strTruthy objS then Json.str objS else Json.null
          let qty_raw := Json.dictGet kvs "quantity"
          let qty : Json :=
            if qty_raw == Json.null then Json.null
            else
              match _qty_from_token (some (Json.pyStr qty_raw)) with
              | some q => Json.str q
              | none => Json.null
          let out := _postprocess t (jor (Json.dictGet kvs "intent") Json.null)
            obj qty (Json.dictGet kvs "box_name") (Json.dictGet kvs "to_box")
            (Json.dictGet kvs "from_box")
          let out :=
            if out.intent == Json.str "REMOVE"
                && (reSearch allEverythingRe t).isSome then
              { out with remove_all := Json.bool true }
            else out
          .ok out
      | _ => .ok {}

/-- `IntentParser.parse(text)`: the ordered rule cascade, first match
wins; otherwise the LLM fallback. -/
def parse (env : Env) (text : String) : Except String OpD :=
  let t := pyLower (pyStrip text)
  match reSearch moveWithDestRe t with
  | some m =>
      .ok (_postprocess t (Json.str "MOVE") (Json.str (_normalize_item (g m t 1)))
        Json.null Json.null
        (match m.groupStr t 3 with
         | some b => Json.str (_normalize_box_name b)
         | none => Json.null)
        (match m.groupStr t 2 with
         | some b => Json.str (_normalize_box_name b)
         | none => Json.null))
  | none =>
  match
    (if (reSearch moveWordsRe t).isSome && !(reSearch toInWordsRe t).isSome
     then reSearch moveNoDestRe t else none) with
  | some m =>
      .ok (_postprocess t (Json.str "MOVE") (Json.str (_normalize_item (g m t 1)))
        Json.null Json.null Json.null Json.null)
  | none =>
  match reSearch addBoxNamedRe t with
  | some m =>
      .ok { intent := Json.str "ADD_BOX",
            box_name := Json.str (_normalize_box_name (g m t 1)) }
  | none =>
  match reSearch addBoxSimpleRe t with
  | some m =>
      if !(["and", "then", "please", "named", "called", "call", "it"].contains
            (g m t 1)) then
        .ok { intent := Json.str "ADD_BOX",
              box_name := Json.str (_normalize_box_name (g m t 1)) }
      else parseTail env t text
  | none => parseTail env t text
where
  /-- `\b(to|into|in)\b` -/
  toInWordsRe : Re :=
    seq wordB (seq (group 1 (strAlt ["to", "into", "in"])) wordB)
  /-- The rules after the ADD_BOX-simple rule. -/
  parseTail (env : Env) (t text : String) : Except String OpD :=
    match reSearch addBoxBareRe t with
    | some _ => .ok { intent := Json.str "ADD_BOX", box_name := Json.null }
    | none =>
    match reSearch removeBoxRe t with
    | some m =>
        .ok { intent := Json.str "REMOVE_BOX",
              box_name := Json.str (_normalize_box_name (g m t 1)) }
    | none =>
    match reSearch clearBoxRe t with
    | some m =>
        .ok { intent := Json.str "CLEAR_BOX",
              to_box := Json.str (_normalize_box_name (g m t 1)),
              box_name := Json.null }
    | none =>
    match reSearch clearBoxAltRe t with
    | some m =>
        .ok { intent := Json.str "CLEAR_BOX",
              to_box := Json.str (_normalize_box_name (g m t 1)),
              box_name := Json.null }
    | none =>
    match reSearch addWithBoxRe t with
    | some m =>
        let qty := (_qty_from_token (m.groupStr t 1)).getD "1"
        .ok (_postprocess t (Json.str "ADD")
          (Json.str (_normalize_item (g m t 2))) (Json.str qty)
          (Json.str (_normalize_box_name (g m t 3))) Json.null Json.null)
    | none =>
    match reSearch addNoBoxRe t with
    | some m =>
        let qty := (_qty_from_token (m.groupStr t 1)).getD "1"
        .ok (_postprocess t (Json.str "ADD")
          (Json.str (_normalize_item (g m t 2))) (Json.str qty)
          Json.null Json.null Json.null)
    | none =>
    match reSearch removeAllRuleRe t with
    | some m =>
        .ok { _postprocess t (Json.str "REMOVE")
                (Json.str (_normalize_item (g m t 1))) Json.null Json.null
                Json.null Json.null
              with remove_all := Json.bool true }
    | none =>
    match reSearch removeQtyRe t with
    | some m =>
        let qty := (_qty_from_token (m.groupStr t 1)).getD "1"
        .ok (_postprocess t (Json.str "REMOVE")
          (Json.str (_normalize_item (g m t 2))) (Json.str qty)
          Json.null Json.null Json.null)
    | none =>
    match reSearch declRemoveRe t with
    | some m =>
        .ok (_postprocess t (Json.str "REMOVE")
          (Json.str (_normalize_item (g m t 1))) Json.null Json.null
          Json.null Json.null)
    | none =>
    match reSearch findRuleRe t with
    | some m =>
        .ok (_postprocess t (Json.str "FIND") (Json.str (pyStrip (g m t 1)))
          Json.null Json.null Json.null Json.null)
    | none => parseLLMFallback env t text

end ParseIntent

/-! ## `src/nlu/multi_intent.py` — MultiIntentExtractor -/

namespace MultiIntent

open Re

/-- The fixed LLM instruction of `extract`, with `{t!r}` appended. -/
def multiPrompt (t : String) : String :=
  "You are an information extraction agent for an inventory app.\n"
  ++ "Return a STRICT JSON array (no commentary, no code fences). Each element must be an object with keys:\n"
  ++ "intent, object_name, quantity, to_box, from_box, box_name (ONLY for ADD_BOX/REMOVE_BOX), remove_all, everything.\n"
  ++ "- intent ∈ [ADD, REMOVE, FIND, ADD_BOX, REMOVE_BOX, CLEAR_BOX, MOVE]\n"
  ++ "- object_name: string or null\n"
  ++ "- quantity: integer or null (default 1 for ADD/REMOVE if missing)\n"
  ++ "- to_box: destination box name as a string or null. If the phrasing uses a letter (e.g., 'box B'), map spoken letters to the uppercase letter; otherwise keep the full name (e.g., 'escape room 1').\n"
  ++ "- from_box: source box name as a string or null (MOVE only)\n"
  ++ "- box_name: string or null ONLY when the user is naming a box for ADD_BOX or REMOVE_BOX\n"
  ++ "- remove_all: boolean or null (true when removing all quantity of a named item)\n"
  ++ "- everything: boolean or null. If user says 'everything' or 'all items', set everything=true to indicate the operation targets all items within the specified scope (e.g., a box).\n"
  ++ "Rules:\n"
  ++ "- Treat declarative and imperative forms as the same intent.\n"
  ++ "- In 'add A and B and C into box X', set to_box='X' (or the full name) for A, B, and C.\n"
  ++ "- If later '... and D and E into box Y', apply 'Y' only to D and E.\n"
  ++ "- Items without a stated destination must have to_box=null.\n"
  ++ "- Map spoken letters to their uppercase letter (bee→B, see/cee/sea→C).\n"
  ++ "- If phrasing is 'remove all <item>' or 'remove all of the <item>' or 'remove everything <item>', set remove_all=true for that REMOVE op and set quantity=null.\n"
  ++ "- If phrasing is 'remove everything from box A and box B' (or similar with multiple boxes), produce SEPARATE ops per box with everything=true; do not combine into an array field.\n"
  ++ "- For FIND with 'everything' and a box, interpret as listing all items in that box (everything=true).\n"
  ++ "Text: " ++ Json.pyReprStr t

/-- `_strip_fences(s)`: peel a Markdown code fence (and a leading "json"
tag) before JSON parsing. -/
def _strip_fences (s : String) : String :=
  let s := pyStrip s
  if pyStartsWith s "```" && pyEndsWith s "```" then
    let s := pyStrip (String.mk ((s.toList.drop 3).take (s.toList.length - 6)))
    if pyStartsWith (pyLower s) "json" then pyStrip (String.mk (s.toList.drop 4))
    else s
  else s

/-- Per-element normalization inside `extract`'s loop; `none` models the
inner `except` skipping the element (a non-dict element, or a truthy
non-string `intent` whose `.upper()` raises). -/
def elemToOp (el : Json) : Option OpD :=
  match el with
  | Json.obj kvs =>
      let intentV := Json.dictGet kvs "intent"
      match
        (if intentV.truthy then
          match intentV with
          | Json.str s => some s
          | _ => none
         else some "") with
      | none => none
      | some sIntent =>
          let u := pyUpper sIntent
          let intent := if strTruthy u then Json.str u else Json.null
          let qty :=
            match Json.dictGet kvs "quantity" with
            | Json.int n => Json.str (toString n)
            | Json.bool b => Json.str (if b then "True" else "False")
            | v => v
          some { intent := intent,
                 object_name := Json.dictGet kvs "object_name",
                 quantity := qty,
                 to_box := jor (Json.dictGet kvs "to_box")
                   (Json.dictGet kvs "box_name"),
                 from_box := Json.dictGet kvs "from_box",
                 remove_all :=
                   match Json.dictGet kvs "remove_all" with
                   | Json.bool b => Json.bool b
                   | _ => Json.bool false,
                 everything :=
                   match Json.dictGet kvs "everything" with
                   | Json.bool b => Json.bool b
                   | _ => Json.bool false }
  | _ => none

/-- `\bremove\s+(?:all|everything)\b` -/
def removeAllCueRe : Re :=
  seq wordB <| seq (str "remove") <| seq reSpaces <|
  seq (alt (str "all") (str "everything")) wordB

/-- The remove-all fallback: REMOVE ops with no quantity get
`remove_all = everything = true` when the utterance says so. -/
def removeAllFallback (t : String) (out : List OpD) : List OpD :=
  if (reSearch removeAllCueRe (pyLower t)).isSome then
    out.map (fun op =>
      if op.intent == Json.str "REMOVE" && !op.quantity.truthy then
        { op with remove_all := Json.bool true, everything := Json.bool true }
      else op)
  else out

/-- `(x or "").strip()` on a decoded value; `none` models the `TypeError`
of `.strip()` on a truthy non-string. -/
def jsonStripStr (j : Json) : Option String :=
  if j.truthy then
    match j with
    | Json.str s => some (pyStrip s)
    | _ => none
  else some ""

/-- The dict-comprehension of the box-propagation block: ordered stripped
`to_box` keys of ADD ops; `none` models an exception (whole block
abandoned before any mutation). -/
def collectAddBoxes : List OpD → Option (List String)
  | [] => some []
  | op :: rest =>
      if op.intent == Json.str "ADD" then
        match jsonStripStr op.to_box with
        | none => none
        | some s =>
            if strTruthy s then (collectAddBoxes rest).map (fun l => s :: l)
            else collectAddBoxes rest
      else collectAddBoxes rest

/-- Order-preserving key dedup (dict keys keep their first position). -/
def dedupKeepAux (seen : List String) : List String → List String
  | [] => []
  | x :: rest =>
      if seen.contains x then dedupKeepAux seen rest
      else x :: dedupKeepAux (x :: seen) rest

def dedupKeep (xs : List String) : List String := dedupKeepAux [] xs

/-- The propagation loop; a mid-loop `.strip()` exception keeps the
mutations made so far (the block's `except` swallows it). -/
def propagateLoop (only : String) : List OpD → List OpD
  | [] => []
  | op :: rest =>
      if op.intent == Json.str "ADD" then
        match jsonStripStr op.to_box with
        | none => op :: rest
        | some s =>
            (if !strTruthy s then { op with to_box := Json.str only } else op)
              :: propagateLoop only rest
      else op :: propagateLoop only rest

/-- If exactly one destination box is present among ADD ops, propagate it
to ADD ops missing `to_box`. -/
def propagateAddBox (out : List OpD) : List OpD :=
  match collectAddBoxes out with
  | none => out
  | some keys =>
      let unique := (dedupKeep keys).filter strTruthy
      match unique with
      | [only] => propagateLoop only out
      | _ => out

/-- `MultiIntentExtractor.extract(text)`: LLM decomposition into an
ordered op list, decoded defensively (`[]` on any decode failure); a
raised collaborator exception propagates (`.error`). -/
def extract (env : Env) (text : String) : Except String (List OpD) :=
  let t := pyStrip text
  if !strTruthy t then .ok []
  else
    match env.chat (multiPrompt t) with
    | .error e => .error e
    | .ok content =>
        match env.parseJson (_strip_fences content) with
        | none => .ok []
        | some arr =>
            let elems := match arr with | Json.arr xs => xs | _ => []
            let out := elems.filterMap elemToOp
            let out := removeAllFallback t out
            let out := propagateAddBox out
            .ok out

end MultiIntent

/-! ## `src/nlu/answer_align.py` — AnswerAligner -/

namespace AnswerAligner

/-- The normalized result of `AnswerAligner.normalize` (a bool stored in
the `quantity` slot behaves as its `int()` downstream, so it is coerced
here). -/
structure AlignOut where
  remove_all : Bool := false
  quantity : Option Int := none
  box_name : Option String := none
  object_name : Option String := none
deriving DecidableEq, Repr

/-- Digits to a number (callers guard with `isdigit`). -/
def strToNat (s : String) : Nat :=
  s.toList.foldl (fun n c => n * 10 + (c.toNat - 48)) 0

/-- The aligner's fixed instruction with field, context dict and answer
interpolated. -/
def alignPrompt (field answer : String) (ctx : List (String × Json)) : String :=
  "You are an information extraction agent for inventory voice UI.\n"
  ++ "Extract ONLY the requested field from the user's answer, plus remove_all when implied.\n"
  ++ "Return STRICT JSON with keys: remove_all(boolean), quantity(integer|null), box_name(string|null), object_name(string|null).\n"
  ++ "Rules:\n"
  ++ "- If the answer indicates all items (e.g., 'all', 'all of them', 'everything'), set remove_all=true and other fields null.\n"
  ++ "- If asking for quantity, return quantity as an integer when present; map number words (one..twenty) to ints.\n"
  ++ "- If asking for a box (box letter), map spoken letters to single letters (bee->b, see->c, etc.).\n"
  ++ "- If asking for object_name, return a concise item name without articles.\n"
  ++ "- Do NOT invent values. If not present, set the field to null.\n"
  ++ "- Do not include any commentary.\n"
  ++ "Field: " ++ field ++ "\n"
  ++ "Context: " ++ Json.pyRepr (Json.obj ctx) ++ "\n"
  ++ "Answer: " ++ Json.pyReprStr answer

/-- `normalize(field, answer, context)`: chat + defensive decode; any
failure (collaborator exception included — the whole body sits in a
`try`) yields the empty normalization. -/
def normalize (env : Env) (field answer : String)
    (ctx : List (String × Json)) : AlignOut :=
  match env.chat (alignPrompt field answer ctx) with
  | .error _ => {}
  | .ok content =>
      match env.parseJson content with
      | some (Json.obj kvs) =>
          { remove_all :=
              match Json.dictGet kvs "remove_all" with
              | Json.bool b => b
              | _ => false,
            quantity :=
              match Json.dictGet kvs "quantity" with
              | Json.int n => some n
              | Json.bool b => some (if b then 1 else 0)
              | Json.str s => if pyIsDigit s then some (strToNat s : Int) else none
              | _ => none,
            box_name :=
              match Json.dictGet kvs "box_name" with
              | Json.str s => if strTruthy s then some (pyStrip s) else none
              | _ => none,
            object_name :=
              match Json.dictGet kvs "object_name" with
              | Json.str s => if strTruthy s then some (pyStrip s) else none
              | _ => none }
      | _ => {}

end AnswerAligner

/-! ## `src/services/sorting_logic.py` — SortingLogic -/

namespace SortingLogic

open Re

/-- Python `needle in hay` on strings (contiguous substring). -/
def containsSub (hay needle : List Char) : Bool :=
  needle.isPrefixOf hay ||
  (match hay with
   | [] => false
   | _ :: t => containsSub t needle)

/-- Python `sub in s`. -/
def pyIn (sub s : String) : Bool := containsSub s.toList sub.toList

/-- `_is_bad_transcript(text)`: empty or a known spurious phrase. -/
def _is_bad_transcript (text : String) : Bool :=
  let t := pyLower (pyStrip text)
  if !strTruthy t then true
  else if pyIn "mbc 뉴스" t then true
  else false

/-- `_ask_slot(prompt, …)`: speak, record, transcribe, retrying once on a
noisy transcript; `""` after two bad answers. The recorder/transcriber
pair is the `transcripts` oracle, consumed in order. -/
def _ask_slot (env : Env) (w : World) (_prompt : String) : String × World :=
  let t1 := pyStrip (env.transcripts w.tcount)
  if !_is_bad_transcript t1 then (t1, { w with tcount := w.tcount + 1 })
  else
    let t2 := pyStrip (env.transcripts (w.tcount + 1))
    if !_is_bad_transcript t2 then (t2, { w with tcount := w.tcount + 2 })
    else ("", { w with tcount := w.tcount + 2 })

/-- `^(?:also|and|then|just|put(?: it)? in|it'?s in|into)\s+` -/
def fillerRe : Re :=
  seq bos <|
  seq (alt (str "also") <| alt (str "and") <| alt (str "then") <|
       alt (str "just") <|
       alt (seq (str "put") (seq (opt (str " it")) (str " in"))) <|
       alt (seq (str "it") (seq (opt (lit '\'')) (str "s in")))
           (str "into"))
  reSpaces

/-- `^\s*([a-z])\s+as\s+in\b` -/
def asInRe : Re :=
  seq bos <| seq reSpacesOpt <| seq (group 1 (cls clsLowerAlpha)) <|
  seq reSpaces <| seq (str "as") <| seq reSpaces <| seq (str "in") wordB

/-- `^\s*(are|ar)\s+as\s+in\b` -/
def asInSpokenRe : Re :=
  seq bos <| seq reSpacesOpt <| seq (group 1 (alt (str "are") (str "ar"))) <|
  seq reSpaces <| seq (str "as") <| seq reSpaces <| seq (str "in") wordB

/-- `(?:call(?:\s+it)?|called|name(?:\s+it)?)\s+(.+)$` -/
def callNameRe : Re :=
  seq (alt (seq (str "call") (opt (seq reSpaces (str "it")))) <|
       alt (str "called")
           (seq (str "name") (opt (seq reSpaces (str "it"))))) <|
  seq reSpaces <| seq (group 1 (plus true anyc)) eos

/-- `re.split(r"[^a-zA-Z0-9]+", r)` with empty fields dropped. -/
def splitNonAlnum (r : String) : List String :=
  ((r.toList.splitOnP (fun c => !(c.isAlpha || c.isDigit))).map String.mk).filter
    strTruthy

/-- The first spoken-letter table of `_extract_box_name_from_reply`
(applied to the first token). -/
def extractSpokenMap1 : List (String × String) :=
  [("bee", "B"), ("be", "B"), ("b", "B"),
   ("cee", "C"), ("see", "C"), ("c", "C"), ("sea", "C"),
   ("dee", "D"), ("d", "D"),
   ("ay", "A"), ("a", "A"),
   ("ar", "R"), ("are", "R"), ("r", "R"),
   ("boxie", "C"), ("boxy", "C")]

/-- The second spoken-letter table (applied to the whole remainder; note
it lacks the R entries). -/
def extractSpokenMap2 : List (String × String) :=
  [("bee", "B"), ("be", "B"), ("b", "B"),
   ("cee", "C"), ("see", "C"), ("c", "C"), ("sea", "C"),
   ("dee", "D"), ("d", "D"),
   ("ay", "A"), ("a", "A"),
   ("boxie", "C"), ("boxy", "C")]

/-- `_extract_box_name_from_reply(reply)`: strip filler, handle
"X as in …" and "call it X", then map spoken letters / single letters. -/
def _extract_box_name_from_reply (reply : String) : String :=
  let r := pyStrip reply
  let r := reSub fillerRe "" r true
  match reSearch asInRe r true with
  | some m => pyUpper ((m.groupStr r 1).getD "")
  | none =>
  match reSearch asInSpokenRe r true with
  | some _ => "R"
  | none =>
      let r :=
        match reSearch callNameRe r true with
        | some m => pyStrip ((m.groupStr r 1).getD "")
        | none => r
      let r := stripTrailingPunct r
      let tokens := splitNonAlnum r
      let viaTokens : Option String :=
        match tokens.head? with
        | none => none
        | some tok0 =>
            let low0 := pyLower tok0
            match extractSpokenMap1.find? (fun kv => kv.1 = low0) with
            | some kv => some kv.2
            | none =>
                if tok0.toList.length = 1 && tok0.toList.all Char.isAlpha then
                  some (pyUpper tok0)
                else none
      match viaTokens with
      | some v => v
      | none =>
          let r :=
            if pyStartsWith (pyLower r) "box " then
              pyStrip (String.mk (r.toList.drop 4))
            else r
          let low := pyLower r
          match extractSpokenMap2.find? (fun kv => kv.1 = low) with
          | some kv => kv.2
          | none => r

/-- The spoken-word-to-letter table of `_resolve_spoken_box_name`. -/
def resolveSpokenMap : List (String × String) :=
  [("ay", "a"), ("a", "a"),
   ("bee", "b"), ("be", "b"), ("b", "b"),
   ("cee", "c"), ("see", "c"), ("c", "c"), ("sea", "c"),
   ("dee", "d"), ("d", "d"),
   ("ee", "e"), ("e", "e"),
   ("ef", "f"), ("f", "f"),
   ("gee", "g"), ("g", "g"),
   ("aitch", "h"), ("h", "h"),
   ("i", "i"),
   ("jay", "j"), ("j", "j"),
   ("kay", "k"), ("k", "k"),
   ("el", "l"), ("ell", "l"), ("l", "l"),
   ("em", "m"), ("m", "m"),
   ("en", "n"), ("n", "n"),
   ("o", "o"),
   ("pee", "p"), ("p", "p"),
   ("cue", "q"), ("queue", "q"), ("q", "q"),
   ("ar", "r"), ("are", "r"), ("r", "r"),
   ("ess", "s"), ("s", "s"),
   ("tee", "t"), ("t", "t"),
   ("you", "u"), ("u", "u"),
   ("vee", "v"), ("v", "v"),
   ("double u", "w"), ("w", "w"),
   ("x", "x"),
   ("why", "y"), ("y", "y"),
   ("zee", "z"), ("zed", "z"), ("z", "z"),
   ("boxie", "c"), ("boxy", "c")]

/-- `\bbox\s+([a-z]+)\b` -/
def boxTokenRe : Re :=
  seq wordB <| seq (str "box") <| seq reSpaces <|
  seq (group 1 (plus true (cls clsLowerAlpha))) wordB

/-- `\b[a-z]\b` -/
def singleLetterRe : Re :=
  seq wordB (seq (cls clsLowerAlpha) wordB)

/-- `\b{re.escape(name)}\b` (case-insensitive). -/
def nameTokenRe (name : String) : Re :=
  seq wordB (seq (str name) wordB)

/-- The `existing_map` dict of `_resolve_spoken_box_name` (lowered name
to original; for duplicate lowered keys the LAST name wins). -/
def existing_map (existing : List String) (key : String) : Option String :=
  existing.reverse.find? (fun n => pyLower n = key)

/-- Layer 1 of `_resolve_spoken_box_name`: the `'box <token>'` scan,
answering through `existing_map` only. -/
def resolveBoxTokenStep (existing : List String) (s_lower : String) :
    Option String :=
  match reSearch boxTokenRe s_lower with
  | none => none
  | some m =>
      let tok := (m.groupStr s_lower 1).getD ""
      match (if tok.toList.length = 1 then existing_map existing tok else none) with
      | some n => some n
      | none =>
          match resolveSpokenMap.find? (fun kv => kv.1 = tok) with
          | some kv => existing_map existing kv.2
          | none => none

/-- Layers 2–3 and the exact / case-insensitive / fuzzy tail of
`_resolve_spoken_box_name` (after the optional "box " prefix strip). -/
def resolveTail (env : Env) (existing : List String) (s s_lower : String) :
    Option String :=
  match (reFindAll singleLetterRe s_lower).findSome?
      (fun tok => existing_map existing tok) with
  | some n => some n
  | none =>
      match existing.find?
          (fun name => (reSearch (nameTokenRe name) s true).isSome) with
      | some n => some n
      | none =>
          if existing.contains s then some s
          else
            match existing.find? (fun name => pyLower name = pyLower s) with
            | some n => some n
            | none =>
                let cutoff : ℚ :=
                  if (existing.filter strTruthy).all
                      (fun n => n.toList.length = 1)
                  then mkRat 1 2 else mkRat 8 10
                env.close s existing cutoff

/-- `_resolve_spoken_box_name(spoken, existing)`: extraction layer first,
then the `'box <token>'` scan, the "box" special cases, standalone
letters, substring/exact/fuzzy matches — each layer only ever answers
with a member of `existing`. -/
def _resolve_spoken_box_name (env : Env) (spoken : String)
    (existing : List String) : Option String :=
  let s := stripTrailingPunct (pyStrip spoken)
  let s_lower := pyLower s
  let extracted := _extract_box_name_from_reply spoken
  if strTruthy extracted && existing.contains extracted then some extracted
  else
    match resolveBoxTokenStep existing s_lower with
    | some n => some n
    | none =>
        if pyStartsWith s_lower "box " then
          let s2 := pyStrip (String.mk (s.toList.drop 4))
          resolveTail env existing s2 (pyLower s2)
        else if s_lower = "box" && existing.length = 1 then existing.head?
        else resolveTail env existing s s_lower


/-! ### `_process_ops_batch` -/

/-- Python `int(s)` on a string: optional sign, ASCII digits, surrounding
whitespace; anything else raises `ValueError`. -/
def pyInt (s : String) : Except String Int :=
  let t := (pyStrip s).toList
  let core : Except String (List Char × Bool) :=
    match t with
    | '+' :: ds => .ok (ds, false)
    | '-' :: ds => .ok (ds, true)
    | ds => .ok (ds, false)
  match core with
  | .ok (ds, neg) =>
      if !ds.isEmpty && ds.all Char.isDigit then
        let n : Int := ds.foldl (fun n c => n * 10 + (c.toNat - 48 : Int)) 0
        .ok (if neg then -n else n)
      else .error ("invalid literal for int() with base 10: " ++ Json.pyReprStr s)
  | .error e => .error e

/-- An op after `_process_ops_batch`'s normalization loop: plain strings
and bools. The fresh dicts it builds carry no `resolved_item` key, so the
execution loop's `op.get("resolved_item")` is always `None` and needs no
field here. -/
structure NOp where
  intent : String
  object_name : String
  quantity : String
  to_box : String
  from_box : String
  remove_all : Bool
  everything : Bool
deriving DecidableEq, Repr

/-- `(j or "")` coerced by use as a string; a truthy non-string raises
(`TypeError`), which `_process_ops_batch` does not catch. -/
def jStrOr (j : Json) : Except String String :=
  if j.truthy then
    match j with
    | Json.str s => .ok s
    | _ => .error "TypeError: expected str"
  else .ok ""

/-- One iteration of the normalization loop, including the
REMOVE-all-from-box → CLEAR_BOX transform. -/
def normalizeOp (op : OpD) : Except String NOp := do
  let intent := pyUpper (← jStrOr op.intent)
  let obj := pyStrip (← jStrOr op.object_name)
  let qty := pyStrip (← jStrOr op.quantity)
  let to_box := pyStrip (← jStrOr (jor op.to_box op.box_name))
  let from_box := pyStrip (← jStrOr op.from_box)
  let remove_all := op.remove_all.truthy
  let everything := op.everything.truthy
  if (intent = "REMOVE" && remove_all && strTruthy to_box && !strTruthy obj)
      || (intent = "REMOVE" && everything && strTruthy to_box && !strTruthy obj) then
    .ok ⟨"CLEAR_BOX", "", "", to_box, from_box, false, false⟩
  else
    .ok ⟨intent, obj, qty, to_box, from_box, remove_all, everything⟩

def normalizeAll : List OpD → Except String (List NOp)
  | [] => .ok []
  | op :: rest => do
      let n ← normalizeOp op
      let ns ← normalizeAll rest
      .ok (n :: ns)

/-- The `missing_prompts` entries contributed by one normalized op. -/
def opMissing (i : Nat) (n : NOp) : List (Nat × String × String) :=
  if n.intent = "ADD" || n.intent = "REMOVE" then
    (if !strTruthy n.object_name
        && !(n.intent = "REMOVE" && strTruthy n.to_box && n.everything) then
      [(i, "object_name", "What item?")] else [])
    ++ (if n.intent = "REMOVE" && !n.remove_all && !strTruthy n.quantity then
      [(i, "quantity", "How many?")] else [])
  else if n.intent = "MOVE" then
    if n.everything then
      (if !strTruthy n.from_box then
        [(i, "from_box", "Move everything from which box?")] else [])
      ++ (if !strTruthy n.to_box then
        [(i, "to_box", "Move to which box?")] else [])
    else
      (if !strTruthy n.object_name then
        [(i, "object_name", "What item to move?")] else [])
      ++ (if !strTruthy n.to_box then
        [(i, "to_box", "Move to which box?")] else [])
  else if n.intent = "FIND" then
    if !strTruthy n.object_name && !(n.everything && strTruthy n.to_box) then
      [(i, "object_name", "What item?")] else []
  else if n.intent = "CLEAR_BOX" then
    if !strTruthy n.to_box then [(i, "to_box", "Which box should I clear?")] else []
  else if n.intent = "ADD_BOX" then
    if !strTruthy n.to_box then
      [(i, "to_box", "What should I name the new box?")] else []
  else if n.intent = "REMOVE_BOX" then
    if !strTruthy n.to_box then [(i, "to_box", "Which box should I remove?")] else []
  else []

def missingAll (ns : List NOp) : List (Nat × String × String) :=
  (ns.enum.map (fun p => opMissing p.1 p.2)).flatten

/-- `_parse_quantity(ans)`: `\b(\d+)\b`, then the number-word table. -/
def pqWords : List (String × Nat) :=
  [("one", 1), ("two", 2), ("three", 3), ("four", 4), ("five", 5),
   ("six", 6), ("seven", 7), ("eight", 8), ("nine", 9), ("ten", 10),
   ("eleven", 11), ("twelve", 12), ("thirteen", 13), ("fourteen", 14),
   ("fifteen", 15), ("sixteen", 16), ("seventeen", 17), ("eighteen", 18),
   ("nineteen", 19), ("twenty", 20),
   ("a", 1), ("an", 1), ("some", 1),
   ("pair", 2), ("couple", 2)]

def pqDigitsRe : Re :=
  seq wordB (seq (group 1 (plus true (cls clsDigit))) wordB)

def pqWordsRe : Re :=
  seq wordB (seq (group 1 (strAlt (pqWords.map (fun kv => kv.1)))) wordB)

def _parse_quantity (ans : String) : Option String :=
  let ans := pyLower (pyStrip ans)
  if !strTruthy ans then none
  else
    match reSearch pqDigitsRe ans with
    | some m => some ((m.groupStr ans 1).getD "")
    | none =>
        match reSearch pqWordsRe ans with
        | some m =>
            (pqWords.find? (fun kv => kv.1 = (m.groupStr ans 1).getD "")).map
              (fun kv => toString kv.2)
        | none => none

/-- The slot-filling question for a missing field. -/
def slotQuestion (intent field item : String) : String :=
  if field = "to_box" && intent = "ADD" then
    "Which box should I add " ++ item ++ " to?"
  else if field = "quantity" && intent = "ADD" then
    "How many " ++ item ++ " should I add?"
  else if field = "quantity" && intent = "REMOVE" then
    "How many " ++ item ++ " should I remove? You can say 'all'."
  else if field = "to_box" && intent = "MOVE" then
    "Move " ++ item ++ " to which box?"
  else if field = "from_box" && intent = "MOVE" then
    "Move everything from which box?"
  else if field = "object_name"
      && (intent = "ADD" || intent = "REMOVE" || intent = "FIND") then
    "What item?"
  else if field = "to_box" && intent = "CLEAR_BOX" then
    "Which box should I clear?"
  else if field = "to_box" && intent = "REMOVE_BOX" then
    "Which box should I remove?"
  else if field = "to_box" && intent = "ADD_BOX" then
    "What should I name the new box?"
  else "Provide " ++ field ++ " for " ++ intent ++ "."

/-- The per-field retry loop (`for attempt in range(retries_per_field)`):
ask, align, interpret. Returns filled?, the op, the world. -/
def attemptLoop (env : Env) (field item q : String) :
    Nat → NOp → World → Bool × NOp × World
  | 0, opn, w => (false, opn, w)
  | n + 1, opn, w =>
      let aw := _ask_slot env w q
      let ans := aw.1
      let w := aw.2
      if !strTruthy ans then attemptLoop env field item q n opn w
      else
        let norm := AnswerAligner.normalize env field ans
          [("intent", Json.str opn.intent), ("object_name", Json.str item)]
        if norm.remove_all then (true, { opn with remove_all := true }, w)
        else if field = "to_box"
            && (match norm.box_name with
                | some s => strTruthy s
                | none => false) then
          let bn := norm.box_name.getD ""
          let mapped := _extract_box_name_from_reply bn
          if strTruthy mapped then (true, { opn with to_box := mapped }, w)
          else (true, { opn with to_box := pyStrip bn }, w)
        else if field = "quantity" && norm.quantity.isSome then
          (true, { opn with quantity := toString (norm.quantity.getD 0) }, w)
        else if field = "object_name"
            && (match norm.object_name with
                | some s => strTruthy s
                | none => false) then
          (true, { opn with object_name := pyStrip (norm.object_name.getD "") }, w)
        else if field = "to_box" then
          let val := _extract_box_name_from_reply ans
          if strTruthy val then (true, { opn with to_box := val }, w)
          else attemptLoop env field item q n opn w
        else if field = "from_box" then
          let val := _extract_box_name_from_reply ans
          if strTruthy val then (true, { opn with from_box := val }, w)
          else attemptLoop env field item q n opn w
        else if field = "quantity" then
          let lo := pyLower (pyStrip ans)
          if pyIn "all" lo || pyIn "everything" lo || pyIn "all of them" lo then
            (true, { opn with remove_all := true }, w)
          else
            match _parse_quantity ans with
            | some v => (true, { opn with quantity := v }, w)
            | none => attemptLoop env field item q n opn w
        else if field = "object_name" then
          (true, { opn with object_name := pyStrip ans }, w)
        else attemptLoop env field item q n opn w

/-- One field of the slot-filling loop: skip when present, REMOVE
quantity lookahead, else ask with retries. -/
def fillField (env : Env) (retries : Nat) (opn : NOp) (w : World)
    (field : String) : Bool × NOp × World :=
  if field = "object_name" && strTruthy opn.object_name then (true, opn, w)
  else if field = "quantity" && strTruthy opn.quantity then (true, opn, w)
  else if field = "to_box" && strTruthy opn.to_box then (true, opn, w)
  else
    let item := if strTruthy opn.object_name then opn.object_name else "the item"
    if field = "quantity" && opn.intent = "REMOVE"
        && (match InventoryService.resolve_semantic_to_store_item env w item with
            | some c => c.quantity ≤ 1
            | none => false) then
      (true, { opn with quantity := "1" }, w)
    else
      attemptLoop env field item (slotQuestion opn.intent field item) retries opn w

def fillFieldsLoop (env : Env) (retries : Nat) :
    List String → NOp → World → Bool × NOp × World
  | [], opn, w => (true, opn, w)
  | f :: rest, opn, w =>
      let r := fillField env retries opn w f
      if r.1 then fillFieldsLoop env retries rest r.2.1 r.2.2
      else (false, r.2.1, r.2.2)

/-- `_required_fields(opn)`. -/
def _required_fields (opn : NOp) : List String :=
  if opn.intent = "ADD" then ["object_name"]
  else if opn.intent = "REMOVE" then ["object_name", "quantity"]
  else if opn.intent = "MOVE" then
    if opn.everything then ["from_box", "to_box"] else ["object_name", "to_box"]
  else if opn.intent = "FIND" then ["object_name"]
  else if opn.intent = "CLEAR_BOX" then ["to_box"]
  else if opn.intent = "ADD_BOX" then ["to_box"]
  else if opn.intent = "REMOVE_BOX" then ["to_box"]
  else []

/-- The slot-filling pass over every op; `none` is the
`return False, "", [], None` cancelling the whole batch. -/
def fillOpsLoop (env : Env) (retries : Nat) :
    List NOp → World → Option (List NOp) × World
  | [], w => (some [], w)
  | opn :: rest, w =>
      let r := fillFieldsLoop env retries (_required_fields opn) opn w
      if r.1 then
        match fillOpsLoop env retries rest r.2.2 with
        | (some l, w2) => (some (r.2.1 :: l), w2)
        | (none, w2) => (none, w2)
      else (none, r.2.2)

/-- The result quadruple of `_process_ops_batch`:
ok, spoken summary, suggestions, suggestion context (intent, object). -/
abbrev BatchResult :=
  Bool × String × List (Item × ℚ) × Option (String × String)

/-- Execution-loop state: the world, the accumulated summary fragments,
and the loop-carried `qty` variable (`none` until first assigned; a read
before assignment would be a Python `NameError`). -/
structure ExecSt where
  w : World
  summary_parts : List String
  qtyVar : Option Int
deriving Repr

/-- Outcome of one op of the execution loop: continue or early return. -/
inductive StepOut where
  | next : ExecSt → StepOut
  | ret : BatchResult → World → StepOut

/-- `{b.id: b.name}` built fresh from the store (dict: last wins). -/
def boxIdToName (w : World) (id : String) : Option String :=
  (w.store.list_boxes.reverse.find? (fun b => b.id = id)).map (fun b => b.name)

/-- `{b.name: b.id}` (dict: last wins). -/
def boxNameToId (w : World) (name : String) : Option String :=
  (w.store.list_boxes.reverse.find? (fun b => b.name = name)).map (fun b => b.id)

/-- One op of the execution loop. `staleFromBox` is the loop-carried
`from_box` variable left over from the normalization loop (the execution
loop never rebinds it, a quirk kept from the source). -/
def execOp (env : Env) (multi_mode : Bool) (staleFromBox : String)
    (st : ExecSt) (op : NOp) : Except String StepOut :=
  let intent := op.intent
  let obj := op.object_name
  let qty_str : Option String :=
    if strTruthy op.quantity then some op.quantity else none
  let to_box := op.to_box
  let everything := op.everything
  if intent = "ADD" then do
    let qty ← match qty_str with
      | some s => pyInt s
      | none => .ok (1 : Int)
    match InventoryService.add_item env st.w obj qty to_box with
    | .ok ((item, is_new_item), w2) =>
        let actual_box := (boxIdToName w2 item.box_id).getD
          (if strTruthy to_box then to_box else "?")
        if !is_new_item then
          .ok (.next ⟨w2,
            st.summary_parts ++ ["incremented " ++ toString qty ++ " "
              ++ item.name ++ " in box " ++ actual_box],
            some qty⟩)
        else
          .ok (.next ⟨w2,
            st.summary_parts ++ ["added " ++ toString qty ++ " "
              ++ item.name ++ " to box " ++ actual_box],
            some qty⟩)
    | .error ve =>
        if pyIn "Box '' not found" ve || pyIn "Box 'None' not found" ve
            || pyIn "Box '' not found for new item." ve
            || (pyStartsWith ve "Box '" && pyIn "not found" ve) then
          let aw := _ask_slot env st.w
            ("Which box should I add " ++ obj ++ " to?")
          let raw_box_ans := aw.1
          let w2 := aw.2
          if !strTruthy raw_box_ans then
            .ok (.next { st with w := w2, qtyVar := some qty })
          else
            let norm := AnswerAligner.normalize env "to_box" raw_box_ans
              [("intent", Json.str "ADD"), ("object_name", Json.str obj)]
            let mapped_box :=
              match norm.box_name with
              | some s =>
                  if strTruthy s then _extract_box_name_from_reply s
                  else _extract_box_name_from_reply raw_box_ans
              | none => _extract_box_name_from_reply raw_box_ans
            let existing_names := w2.store.list_boxes.map (fun b => pyStrip b.name)
            let mapped_box :=
              if strTruthy mapped_box && !existing_names.contains mapped_box then
                match _resolve_spoken_box_name env mapped_box existing_names with
                | some fallback => fallback
                | none => mapped_box
              else mapped_box
            if !strTruthy mapped_box
                || (!existing_names.isEmpty
                    && !existing_names.contains mapped_box) then
              .ok (.next { st with w := w2, qtyVar := some qty })
            else
              match InventoryService.add_item env w2 obj qty mapped_box with
              | .ok ((item, _), w3) =>
                  .ok (.next ⟨w3,
                    st.summary_parts ++ ["added " ++ toString qty ++ " "
                      ++ item.name ++ " to box " ++ mapped_box],
                    some qty⟩)
              | .error _ => .ok (.next { st with w := w2, qtyVar := some qty })
        else
          .ok (.next { st with qtyVar := some qty })
  else if intent = "REMOVE" then do
    let r ←
      if op.remove_all then
        let r := InventoryService.remove_item_all env st.w obj
        .ok (r, st.qtyVar)
      else do
        let qty_str :=
          match qty_str with
          | none =>
              match InventoryService.resolve_semantic_to_store_item env st.w obj with
              | some concrete =>
                  if concrete.quantity ≤ 1 then some "1" else none
              | none => none
          | some s => some s
        let qty ← match qty_str with
          | some s => pyInt s
          | none => .ok (1 : Int)
        let r := InventoryService.remove_item env st.w obj qty
        .ok (r, some qty)
    let rr := r.1
    let qtyVar2 := r.2
    let updated := rr.1.1
    let suggestions_for_remove := rr.1.2
    let w2 := rr.2
    match updated with
    | none =>
        if !suggestions_for_remove.isEmpty then
          if multi_mode then .ok (.next { st with w := w2, qtyVar := qtyVar2 })
          else .ok (.ret (false, "", suggestions_for_remove, some (intent, obj)) w2)
        else
          if multi_mode then .ok (.next { st with w := w2, qtyVar := qtyVar2 })
          else .ok (.ret (false, "", [], none) w2)
    | some u =>
        if u.quantity = 0 then
          .ok (.next ⟨w2, st.summary_parts ++ ["removed all of " ++ obj],
            qtyVar2⟩)
        else
          match qtyVar2 with
          | none => .error "NameError: name 'qty' is not defined"
          | some qv =>
              .ok (.next ⟨w2,
                st.summary_parts ++ ["removed " ++ toString qv ++ " from " ++ obj],
                qtyVar2⟩)
  else if intent = "MOVE" then
    if everything && strTruthy staleFromBox && strTruthy to_box then
      match InventoryService.move_all_items_between_boxes env st.w
          staleFromBox to_box with
      | .error _ => .ok (.next st)
      | .ok (moved, w2) =>
          let count := moved.length
          let parts := st.summary_parts
            ++ (if count ≠ 0 then
                  ["moved " ++ toString count ++ " items from box "
                   ++ staleFromBox ++ " to box " ++ to_box]
                else [])
          .ok (.next { st with w := w2, summary_parts := parts })
    else
      match InventoryService.move_item env st.w obj to_box (some staleFromBox) with
      | .error e => .error e
      | .ok ((updated, suggestions_for_move), w2) =>
          match updated with
          | none =>
              if !suggestions_for_move.isEmpty then
                if multi_mode then .ok (.next { st with w := w2 })
                else .ok (.ret (false, "", suggestions_for_move, some (intent, obj)) w2)
              else
                if multi_mode then .ok (.next { st with w := w2 })
                else .ok (.ret (false, "", [], none) w2)
          | some _ =>
              let parts := st.summary_parts
                ++ ["moved " ++ obj ++ " to box " ++ to_box]
              .ok (.next { st with w := w2, summary_parts := parts })
  else if intent = "FIND" then
    if everything && strTruthy to_box then
      .ok (.next st)
    else
      let fsr := InventoryService.find_item_by_semantic env obj
      match fsr.1 with
      | none =>
          if multi_mode then .ok (.next st)
          else .ok (.ret (true, "", [], none) st.w)
      | some item =>
          let _all_hits := SemanticSearch.find_all_above_threshold env obj 10 0
          let box_name := (boxIdToName st.w item.box_id).getD "?"
          let parts := st.summary_parts
            ++ ["found " ++ item.name ++ " in box " ++ box_name]
          .ok (.next { st with summary_parts := parts })
  else if intent = "CLEAR_BOX" then
    let boxn := pyStrip op.to_box
    if !strTruthy boxn then .ok (.ret (false, "", [], none) st.w)
    else
      match InventoryService.clear_box_items env st.w boxn with
      | .error e => .error e
      | .ok (deleted, w2) =>
          let parts := st.summary_parts
            ++ ["cleared " ++ toString deleted ++ " items from box " ++ boxn]
          .ok (.next { st with w := w2, summary_parts := parts })
  else if intent = "ADD_BOX" then
    let name := pyStrip op.to_box
    -- the source returns a bare 3-tuple here; modelled as the failure quadruple
    if !strTruthy name then .ok (.ret (false, "", [], none) st.w)
    else
      let bw := InventoryService.add_box st.w name
      let parts := st.summary_parts ++ ["box '" ++ bw.1.name ++ "' ready"]
      .ok (.next { st with w := bw.2, summary_parts := parts })
  else if intent = "REMOVE_BOX" then
    let name := pyStrip op.to_box
    if !strTruthy name then .ok (.ret (false, "", [], none) st.w)
    else
      match InventoryService.remove_box_if_empty env st.w name with
      | .error _ => .ok (.next st)
      | .ok (removed, w2) =>
          if removed then
            let parts := st.summary_parts ++ ["removed box '" ++ name ++ "'"]
            .ok (.next { st with w := w2, summary_parts := parts })
          else .ok (.next { st with w := w2 })
  else .ok (.next st)

def execLoop (env : Env) (multi_mode : Bool) (staleFromBox : String) :
    List NOp → ExecSt → Except String StepOut
  | [], st => .ok (.next st)
  | op :: rest, st => do
      match ← execOp env multi_mode staleFromBox st op with
      | .next st2 => execLoop env multi_mode staleFromBox rest st2
      | .ret r w => .ok (.ret r w)

/-- `"; ".join(parts).rstrip("; ")`. -/
def joinSummary (parts : List String) : String :=
  String.mk (((joinSemi parts).toList.reverse.dropWhile
    (fun c => c = ';' || c = ' ')).reverse)

/-- `spoken[0].upper() + spoken[1:]`. -/
def capFirst (s : String) : String :=
  match s.toList with
  | [] => ""
  | c :: rest => String.mk (c.toUpper :: rest)

/-- `_process_ops_batch(batch, …)`: normalize, slot-fill (cancelling the
whole batch when a field stays unfilled — before any execution), then the
per-op execution loop accumulating the spoken summary. `.error` models an
exception propagating out of the method. -/
def _process_ops_batch (env : Env) (w : World) (batch : List OpD) :
    Except String (BatchResult × World) := do
  let normalized ← normalizeAll batch
  let missing_prompts := missingAll normalized
  let retries_per_field := max 2 batch.length
  let filled :=
    if missing_prompts.isEmpty then (some normalized, w)
    else fillOpsLoop env retries_per_field normalized w
  match filled with
  | (none, w2) => .ok ((false, "", [], none), w2)
  | (some ops, w2) =>
      let multi_mode := decide (ops.length > 1)
      let staleFromBox :=
        match normalized.getLast? with
        | some n => n.from_box
        | none => ""
      match ← execLoop env multi_mode staleFromBox ops ⟨w2, [], none⟩ with
      | .ret r w3 => .ok (r, w3)
      | .next st =>
          let spoken := joinSummary st.summary_parts
          let spoken := if strTruthy spoken then capFirst spoken else spoken
          .ok ((true, spoken, [], none), st.w)





end SortingLogic


/-! # Theorems

Helper lemmas first, then one theorem per claim (with witnesses and
counterexamples where required). -/

/-! ## Helper lemmas -/

theorem mk_toList (cs : List Char) : (String.mk cs).toList = cs := rfl

theorem mk_inj {a b : List Char} (h : String.mk a = String.mk b) : a = b := by
  have := congrArg String.toList h
  simpa using this

/-- Setting the last position of a list to its own last element is the
identity. -/
theorem set_getLast? (l : List String) (x : String)
    (h : l.getLast? = some x) : l.set (l.length - 1) x = l := by
  induction l with
  | nil => simp at h
  | cons a rest ih =>
      cases rest with
      | nil =>
          simp [List.getLast?] at h
          simp [h]
      | cons b rest2 =>
          have h2 : (b :: rest2).getLast? = some x := by
            simpa [List.getLast?_cons_cons] using h
          have := ih h2
          simpa [List.set] using this

namespace CanonicalizeService

/-- Idempotence of `normalize_to_singular` on fully-normal forms: a
string that is strip-, lower- and canonicalize-stable, sheds no leading
article, matches no measure-of phrase, and whose last token is a fixed
point of the singularizer, is a fixed point of the normalizer. -/
theorem normalize_to_singular_fixed (o : String)
    (hstrip : pyStrip o = o) (hlower : pyLower o = o)
    (hcanon : canonicalize o = o)
    (hart : strip_leading_articles o = o)
    (hof : collapse_of_phrases o = o)
    (hlast : ∀ lt, (pySplit o).getLast? = some lt → singularizeCore lt = lt) :
    normalize_to_singular o = o := by
  unfold normalize_to_singular
  rw [hart]
  simp only [hof, hcanon]
  cases hl : (pySplit o).getLast? with
  | none => rfl
  | some last =>
      have hfix := hlast last hl
      dsimp only
      rw [hfix, set_getLast? _ _ hl]
      have hstripL : stripL o.toList = o.toList := mk_inj hstrip
      have hlowerL : lowerL o.toList = o.toList := mk_inj hlower
      have : canonicalize o = joinSpace (pySplit o) := by
        unfold canonicalize joinSpace pySplit wsplit
        rw [hstripL, hlowerL]
        congr 1
        rw [List.map_map]
        have : (String.toList ∘ String.mk) = id := by
          funext cs
          rfl
        rw [this, List.map_id]
      rw [← this, hcanon]

end CanonicalizeService

/-! ## C4 — idempotence of `normalize_to_singular` -/

open CanonicalizeService in
/-- C4, counterexample: `normalize_to_singular` is not idempotent for
every string — "the the cat" normalizes to "the cat" (one article
stripped per pass), which normalizes again to "cat". -/
theorem c4_counterexample :
    normalize_to_singular (normalize_to_singular "the the cat") ≠
      normalize_to_singular "the the cat" := by decide

open CanonicalizeService in
/-- C4, amended: `normalize_to_singular` is idempotent for every name
whose normalized form is already fully normal — strip-, lowercase- and
canonicalize-stable, shedding no further leading article, matching no
measure-of phrase, and whose final token the singularizer fixes. -/
theorem c4_normalize_to_singular_idempotent (n : String)
    (hstrip : pyStrip (normalize_to_singular n) = normalize_to_singular n)
    (hlower : pyLower (normalize_to_singular n) = normalize_to_singular n)
    (hcanon : canonicalize (normalize_to_singular n) = normalize_to_singular n)
    (hart : strip_leading_articles (normalize_to_singular n) =
      normalize_to_singular n)
    (hof : collapse_of_phrases (normalize_to_singular n) =
      normalize_to_singular n)
    (hlast : (pySplit (normalize_to_singular n)).getLast?.map singularizeCore =
      (pySplit (normalize_to_singular n)).getLast?) :
    normalize_to_singular (normalize_to_singular n) = normalize_to_singular n := by
  refine normalize_to_singular_fixed _ hstrip hlower hcanon hart hof ?_
  intro lt hl
  rw [hl] at hlast
  exact Option.some.inj hlast

open CanonicalizeService in
/-- C4, witness: the amended idempotence at the concrete name "cats". -/
theorem c4_witness :
    normalize_to_singular (normalize_to_singular "cats") =
      normalize_to_singular "cats" :=
  c4_normalize_to_singular_idempotent "cats" (by decide) (by decide)
    (by decide) (by decide) (by decide) (by decide)

/-! ## C5 — the threshold decision of `find_best_match` -/

namespace SemanticSearch

/-- The comparison `sortDesc` sorts by (higher score first, stable). -/
def scoreGE (a b : Item × ℚ) : Prop := b.2 ≤ a.2

instance : DecidableRel scoreGE := fun a b => inferInstanceAs (Decidable (b.2 ≤ a.2))

instance : IsTotal (Item × ℚ) scoreGE := ⟨fun a b => le_total b.2 a.2⟩

instance : IsTrans (Item × ℚ) scoreGE := ⟨fun _ _ _ h1 h2 => le_trans h2 h1⟩

theorem insertDesc_eq_orderedInsert (x : Item × ℚ) (l : List (Item × ℚ)) :
    insertDesc x l = l.orderedInsert scoreGE x := by
  induction l with
  | nil => rfl
  | cons y ys ih =>
      unfold insertDesc List.orderedInsert
      rw [ih]
      rfl

theorem sortDesc_eq_insertionSort (l : List (Item × ℚ)) :
    sortDesc l = l.insertionSort scoreGE := by
  induction l with
  | nil => rfl
  | cons x xs ih =>
      unfold sortDesc List.insertionSort
      rw [ih, insertDesc_eq_orderedInsert]

theorem sortDesc_sorted (l : List (Item × ℚ)) :
    (sortDesc l).Sorted scoreGE := by
  rw [sortDesc_eq_insertionSort]
  exact List.sorted_insertionSort scoreGE l

/-- Every score in a `top_k` answer is bounded by the head's score. -/
theorem top_k_head_max (env : Env) (q : String) (k : Nat) :
    ∀ p ∈ top_k env q k,
      p.2 ≤ (((top_k env q k).head?.map Prod.snd).getD 0) := by
  intro p hp
  have hs : (top_k env q k).Sorted scoreGE := by
    unfold top_k top_kE
    split
    · simp
    · exact sortDesc_sorted _
  cases htop : top_k env q k with
  | nil => rw [htop] at hp; simp at hp
  | cons a t =>
      rw [htop] at hp hs
      simp only [List.head?, Option.map_some, Option.getD_some]
      rcases List.mem_cons.mp hp with h | h
      · rw [h]
        simp
      · exact List.rel_of_sorted_cons hs p h

end SemanticSearch

open SemanticSearch in
/-- C5, counterexample: with four index results all scoring 1/2 (below
threshold), `find_best_match` answers no-match but keeps only the first
three fetched results as suggestions — not all of them, contradicting
"all top-k results become the suggestion list" (the spec's top-k is
`desired suggestions + 1`). -/
theorem c5_counterexample :
    (find_best_match
        { embed := fun _ => [1],
          query := fun _ _ =>
            [⟨"i1", mkRat 1 2, "a", "a", "", ""⟩, ⟨"i2", mkRat 1 2, "b", "b", "", ""⟩,
             ⟨"i3", mkRat 1 2, "c", "c", "", ""⟩, ⟨"i4", mkRat 1 2, "d", "d", "", ""⟩],
          close := fun _ _ _ => none, chat := fun _ => .ok "",
          parseJson := fun _ => none, transcripts := fun _ => "" }
        "towel").1 = none ∧
    (find_best_match
        { embed := fun _ => [1],
          query := fun _ _ =>
            [⟨"i1", mkRat 1 2, "a", "a", "", ""⟩, ⟨"i2", mkRat 1 2, "b", "b", "", ""⟩,
             ⟨"i3", mkRat 1 2, "c", "c", "", ""⟩, ⟨"i4", mkRat 1 2, "d", "d", "", ""⟩],
          close := fun _ _ _ => none, chat := fun _ => .ok "",
          parseJson := fun _ => none, transcripts := fun _ => "" }
        "towel").2.2.length = 3 ∧
    (top_k
        { embed := fun _ => [1],
          query := fun _ _ =>
            [⟨"i1", mkRat 1 2, "a", "a", "", ""⟩, ⟨"i2", mkRat 1 2, "b", "b", "", ""⟩,
             ⟨"i3", mkRat 1 2, "c", "c", "", ""⟩, ⟨"i4", mkRat 1 2, "d", "d", "", ""⟩],
          close := fun _ _ _ => none, chat := fun _ => .ok "",
          parseJson := fun _ => none, transcripts := fun _ => "" }
        "towel" 4).length = 4 := by
  refine ⟨?_, ?_, ?_⟩ <;> decide

open SemanticSearch in
/-- C5, amended: the head of the fetched list carries the highest score;
`find_best_match` answers a definite match exactly when that score
reaches the 0.80 threshold (boundary inclusive: the match is the head
itself, with the rest as suggestions); below the threshold it answers
no-match and the suggestion list is the first `top_k_suggestions` of the
fetched results — all of them only when no more were fetched. -/
theorem c5_find_best_match_threshold (env : Env) (q : String) (s : Nat) :
    (∀ p ∈ top_k env q (s + 1),
      p.2 ≤ (((top_k env q (s + 1)).head?.map Prod.snd).getD 0)) ∧
    ((find_best_match env q s).1.isSome = true ↔
      (top_k env q (s + 1) ≠ [] ∧
       THRESHOLD ≤ (((top_k env q (s + 1)).head?.map Prod.snd).getD 0))) ∧
    (∀ it sc rest, top_k env q (s + 1) = (it, sc) :: rest →
      THRESHOLD ≤ sc →
      find_best_match env q s = (some it, sc, rest.take s)) ∧
    ((find_best_match env q s).1 = none →
      (find_best_match env q s).2.2 = (top_k env q (s + 1)).take s) := by
  refine ⟨top_k_head_max env q (s + 1), ?_, ?_, ?_⟩
  · unfold find_best_match find_best_matchE
    cases hm : (top_kE env q (s + 1)).1 with
    | nil =>
        simp only [top_k, hm]
        constructor
        · intro h
          exfalso
          revert h
          norm_num [THRESHOLD]
        · rintro ⟨h, -⟩
          exact absurd rfl h
    | cons a t =>
        simp only [top_k, hm]
        by_cases hth : THRESHOLD ≤ a.2
        · rw [if_pos hth, if_neg (not_lt.mpr hth)]
          simp [hth]
        · rw [if_neg hth, if_pos (lt_of_not_le hth)]
          simp [hth]
  · intro it sc rest hms hth
    unfold find_best_match find_best_matchE
    have hm : (top_kE env q (s + 1)).1 = (it, sc) :: rest := hms
    simp only [hm]
    rw [if_pos hth, if_neg (not_lt.mpr hth)]
    simp
  · intro hnone
    revert hnone
    unfold find_best_match find_best_matchE
    cases hm : (top_kE env q (s + 1)).1 with
    | nil => intro _; simp [top_k, hm]
    | cons a t =>
        simp only [top_k, hm]
        by_cases hth : THRESHOLD ≤ a.2
        · rw [if_pos hth, if_neg (not_lt.mpr hth)]
          intro h
          simp at h
        · rw [if_neg hth, if_pos (lt_of_not_le hth)]
          intro _
          rfl

open SemanticSearch in
/-- C5, witness: the amended statement applied at a concrete environment
whose four results score 1/2, discharging the hypotheses of its
conditional parts at that instance. -/
theorem c5_witness :
    (find_best_match
        { embed := fun _ => [1],
          query := fun _ _ =>
            [⟨"i1", mkRat 1 2, "a", "a", "", ""⟩, ⟨"i2", mkRat 1 2, "b", "b", "", ""⟩,
             ⟨"i3", mkRat 1 2, "c", "c", "", ""⟩, ⟨"i4", mkRat 1 2, "d", "d", "", ""⟩],
          close := fun _ _ _ => none, chat := fun _ => .ok "",
          parseJson := fun _ => none, transcripts := fun _ => "" }
        "towel").2.2 =
      (top_k
        { embed := fun _ => [1],
          query := fun _ _ =>
            [⟨"i1", mkRat 1 2, "a", "a", "", ""⟩, ⟨"i2", mkRat 1 2, "b", "b", "", ""⟩,
             ⟨"i3", mkRat 1 2, "c", "c", "", ""⟩, ⟨"i4", mkRat 1 2, "d", "d", "", ""⟩],
          close := fun _ _ _ => none, chat := fun _ => .ok "",
          parseJson := fun _ => none, transcripts := fun _ => "" }
        "towel" 4).take 3 :=
  (c5_find_best_match_threshold _ "towel" 3).2.2.2 (by decide)

/-! ## C6 — REMOVE deletes at zero, updates otherwise -/

open InventoryService SemanticSearch in
/-- C6: a REMOVE whose name resolves to a concrete store record `c`
(with the store resolving `c.id` back to `c`) deletes the record and its
index entry and reports quantity 0 when `c.quantity - q ≤ 0`; when
`q < c.quantity` it deletes nothing (index untouched, item list mapped in
place) and the record is updated to quantity `c.quantity - q`. -/
theorem c6_remove_item_delete_or_update (env : Env) (w : World)
    (name : String) (q : Int) (resolved : Option Item) (cand c : Item)
    (hcand : (InventoryService.resolveCand env name resolved).1 = some cand)
    (hconc : resolveConcrete w cand resolved.isSome = some c)
    (hid : w.store.items.find? (fun it => it.id = c.id) = some c) :
    (c.quantity - q ≤ 0 →
      remove_item env w name q resolved =
        ((some ⟨c.id, c.name, c.canonical_name, 0, c.box_id⟩, []),
         ⟨⟨w.store.boxes,
           w.store.items.filter (fun it => it.id ≠ c.id),
           w.store.nextId⟩,
          deleteEntry w.index c.id, w.tcount⟩)) ∧
    (q < c.quantity →
      remove_item env w name q resolved =
        ((some ⟨c.id, c.name, c.canonical_name, c.quantity - q, c.box_id⟩, []),
         ⟨⟨w.store.boxes,
           w.store.items.map (fun j =>
             if j.id = c.id then
               ⟨c.id, c.name, c.canonical_name, c.quantity - q, c.box_id⟩
             else j),
           w.store.nextId⟩,
          w.index, w.tcount⟩)) := by
  constructor
  · intro hle
    unfold remove_item
    simp only [hcand, hconc]
    rw [if_pos hle]
    rfl
  · intro hlt
    unfold remove_item
    simp only [hcand, hconc]
    rw [if_neg (by omega : ¬(c.quantity - q ≤ 0))]
    unfold Store.update_item_quantity
    rw [hid]

open InventoryService in
/-- C6, witness: removing 2 of 5 updates to 3 with no deletion. -/
theorem c6_witness :
    remove_item
      { embed := fun _ => [1],
        query := fun _ _ => [⟨"it1", mkRat 9 10, "candy", "candy", "bx1", ""⟩],
        close := fun _ _ _ => none, chat := fun _ => .ok "",
        parseJson := fun _ => none, transcripts := fun _ => "" }
      { store := { boxes := [⟨"bx1", "A"⟩],
                   items := [⟨"it1", "candy", "candy", 5, "bx1"⟩],
                   nextId := 2 },
        index := [⟨"it1", "candy", "candy", "bx1", "A"⟩], tcount := 0 }
      "candy" 2 none =
      ((some ⟨"it1", "candy", "candy", 3, "bx1"⟩, []),
       ⟨⟨[⟨"bx1", "A"⟩], [⟨"it1", "candy", "candy", 3, "bx1"⟩], 2⟩,
        [⟨"it1", "candy", "candy", "bx1", "A"⟩], 0⟩) := by
  have h := c6_remove_item_delete_or_update
    { embed := fun _ => [1],
      query := fun _ _ => [⟨"it1", mkRat 9 10, "candy", "candy", "bx1", ""⟩],
      close := fun _ _ _ => none, chat := fun _ => .ok "",
      parseJson := fun _ => none, transcripts := fun _ => "" }
    { store := { boxes := [⟨"bx1", "A"⟩],
                 items := [⟨"it1", "candy", "candy", 5, "bx1"⟩],
                 nextId := 2 },
      index := [⟨"it1", "candy", "candy", "bx1", "A"⟩], tcount := 0 }
    "candy" 2 none ⟨"it1", "candy", "candy", 0, "bx1"⟩
    ⟨"it1", "candy", "candy", 5, "bx1"⟩
    (by decide) (by decide) (by decide)
  have h2 := h.2 (by decide)
  rw [h2]
  decide

/-! ## C1 — ADD merges into an existing match anywhere -/

open InventoryService SemanticSearch CanonicalizeService in
/-- C1: when semantic resolution of the name finds a definite match `m`
(score at or above 0.80) and the match resolves to the store record
`full`, `add_item` increments that record's quantity by `q` in its
current box — same `box_id`, boxes and id counter untouched, items only
mapped in place (no new record) — and this is independent of the
requested destination box `b`. -/
theorem c1_add_item_merges (env : Env) (w : World) (name : String)
    (q : Int) (b : String) (m full : Item) (sc : ℚ)
    (sugg : List (Item × ℚ))
    (hmatch : find_best_match env (normalize_to_singular name) =
      (some m, sc, sugg))
    (hsc : THRESHOLD ≤ sc)
    (hfull : _get_item_by_id w m.id = some full)
    (hid : w.store.items.find? (fun it => it.id = full.id) = some full) :
    add_item env w name q b =
      .ok ((⟨full.id, full.name, full.canonical_name,
             full.quantity + q, full.box_id⟩, false),
        ⟨⟨w.store.boxes,
          w.store.items.map (fun j =>
            if j.id = full.id then
              ⟨full.id, full.name, full.canonical_name,
                full.quantity + q, full.box_id⟩
            else j),
          w.store.nextId⟩,
         upsertEntry w.index
           ⟨full.id, full.name, full.canonical_name, full.box_id,
             (let nm := _get_box_name_by_id w full.box_id;
              if strTruthy nm then nm else "")⟩,
         w.tcount⟩) ∧
    (∀ b2, add_item env w name q b2 = add_item env w name q b) := by
  have hone : ∀ bx, add_item env w name q bx =
      .ok ((⟨full.id, full.name, full.canonical_name,
             full.quantity + q, full.box_id⟩, false),
        ⟨⟨w.store.boxes,
          w.store.items.map (fun j =>
            if j.id = full.id then
              ⟨full.id, full.name, full.canonical_name,
                full.quantity + q, full.box_id⟩
            else j),
          w.store.nextId⟩,
         upsertEntry w.index
           ⟨full.id, full.name, full.canonical_name, full.box_id,
             (let nm := _get_box_name_by_id w full.box_id;
              if strTruthy nm then nm else "")⟩,
         w.tcount⟩) := by
    intro bx
    unfold add_item
    simp only [hmatch]
    rw [if_pos hsc]
    simp only [hfull]
    unfold Store.update_item_quantity
    rw [hid]
    unfold index_item _get_box_name_by_id
    rfl
  exact ⟨hone b, fun b2 => (hone b2).trans (hone b).symm⟩

open InventoryService in
/-- C1, witness: adding 2 "candy" with destination "B" merges into the
existing record in box "bx1" (box "A"), leaving one record of quantity 7
and the requested destination unused. -/
theorem c1_witness :
    add_item
      { embed := fun _ => [1],
        query := fun _ _ => [⟨"it1", mkRat 9 10, "candy", "candy", "bx1", ""⟩],
        close := fun _ _ _ => none, chat := fun _ => .ok "",
        parseJson := fun _ => none, transcripts := fun _ => "" }
      { store := { boxes := [⟨"bx1", "A"⟩, ⟨"bx2", "B"⟩],
                   items := [⟨"it1", "candy", "candy", 5, "bx1"⟩],
                   nextId := 3 },
        index := [⟨"it1", "candy", "candy", "bx1", "A"⟩], tcount := 0 }
      "candy" 2 "B" =
      .ok ((⟨"it1", "candy", "candy", 7, "bx1"⟩, false),
        ⟨⟨[⟨"bx1", "A"⟩, ⟨"bx2", "B"⟩],
          [⟨"it1", "candy", "candy", 7, "bx1"⟩], 3⟩,
         [⟨"it1", "candy", "candy", "bx1", "A"⟩], 0⟩) := by
  have h := (c1_add_item_merges
    { embed := fun _ => [1],
      query := fun _ _ => [⟨"it1", mkRat 9 10, "candy", "candy", "bx1", ""⟩],
      close := fun _ _ _ => none, chat := fun _ => .ok "",
      parseJson := fun _ => none, transcripts := fun _ => "" }
    { store := { boxes := [⟨"bx1", "A"⟩, ⟨"bx2", "B"⟩],
                 items := [⟨"it1", "candy", "candy", 5, "bx1"⟩],
                 nextId := 3 },
      index := [⟨"it1", "candy", "candy", "bx1", "A"⟩], tcount := 0 }
    "candy" 2 "B" ⟨"it1", "candy", "candy", 0, "bx1"⟩
    ⟨"it1", "candy", "candy", 5, "bx1"⟩ (mkRat 9 10) []
    (by decide) (by decide) (by decide) (by decide)).1
  rw [h]
  rfl

/-! ## C8 — REMOVE_BOX on a non-empty box is inert -/

open InventoryService in
/-- C8: when the named box resolves and at least one item links to it,
`remove_box_if_empty` answers `False` and returns the world untouched:
the box and every item survive exactly as they were. -/
theorem c8_remove_box_nonempty_inert (env : Env) (w : World)
    (box_name : String) (b : Box)
    (hfind : _find_box_by_name env w box_name = some b)
    (hlinked : w.store.list_items.any (fun it => it.box_id = b.id) = true) :
    remove_box_if_empty env w box_name = .ok (false, w) := by
  unfold remove_box_if_empty
  rw [hfind]
  dsimp only
  rw [hlinked]
  rfl

open InventoryService in
/-- C8, witness: box "A" holding one item is reported non-empty and left
intact. -/
theorem c8_witness :
    remove_box_if_empty
      { embed := fun _ => [], query := fun _ _ => [],
        close := fun _ _ _ => none, chat := fun _ => .ok "",
        parseJson := fun _ => none, transcripts := fun _ => "" }
      { store := { boxes := [⟨"bx1", "A"⟩],
                   items := [⟨"it1", "candy", "candy", 5, "bx1"⟩],
                   nextId := 2 },
        index := [], tcount := 0 }
      "A" =
      .ok (false,
        { store := { boxes := [⟨"bx1", "A"⟩],
                     items := [⟨"it1", "candy", "candy", 5, "bx1"⟩],
                     nextId := 2 },
          index := [], tcount := 0 }) :=
  c8_remove_box_nonempty_inert _ _ "A" ⟨"bx1", "A"⟩ (by decide) (by decide)

/-! ## C10 — blank queries short-circuit the search layer -/

open SemanticSearch in
/-- C10: a query that is empty or whitespace-only makes `top_k` return
`[]` and `find_best_match` return no match, score 0 and no suggestions,
with no embedder call and no index query issued (the call logs are
empty). -/
theorem c10_blank_query_short_circuits (env : Env) (q : String)
    (s k : Nat) (hblank : strTruthy (pyStrip q) = false) :
    top_kE env q k = ([], []) ∧
    find_best_matchE env q s = ((none, 0, []), []) := by
  constructor
  · unfold top_kE
    rw [hblank]
    rfl
  · unfold find_best_matchE top_kE
    rw [hblank]
    simp [SemanticSearch.sortDesc]

open SemanticSearch in
/-- C10, witness: the whitespace query `"  "` with a live-looking
environment. -/
theorem c10_witness :
    top_kE
      { embed := fun _ => [1], query := fun _ _ => [⟨"x", 1, "", "", "", ""⟩],
        close := fun _ _ _ => none, chat := fun _ => .ok "",
        parseJson := fun _ => none, transcripts := fun _ => "" }
      "  " 3 = ([], []) ∧
    find_best_matchE
      { embed := fun _ => [1], query := fun _ _ => [⟨"x", 1, "", "", "", ""⟩],
        close := fun _ _ _ => none, chat := fun _ => .ok "",
        parseJson := fun _ => none, transcripts := fun _ => "" }
      "  " 3 = ((none, 0, []), []) :=
  c10_blank_query_short_circuits _ "  " 3 3 (by decide)

/-! ## C9 — box-name resolution never invents a name -/

/-- A hit in a reversed find is a member of the original list. -/
theorem mem_of_revFind {p : String → Bool} {l : List String} {a : String}
    (h : l.reverse.find? p = some a) : a ∈ l :=
  List.mem_reverse.mp (List.mem_of_find?_eq_some h)

namespace SortingLogic

theorem existing_map_mem {existing : List String} {key n : String}
    (h : existing_map existing key = some n) : n ∈ existing :=
  mem_of_revFind h

theorem resolveBoxTokenStep_mem {existing : List String} {sl n : String}
    (h : resolveBoxTokenStep existing sl = some n) : n ∈ existing := by
  unfold resolveBoxTokenStep at h
  split at h
  · exact absurd h (by simp)
  · dsimp only at h
    split at h
    · next a heq =>
        cases h
        split at heq
        · exact existing_map_mem heq
        · exact absurd heq (by simp)
    · next heq =>
        split at h
        · exact existing_map_mem h
        · exact absurd h (by simp)

theorem resolveTail_mem (env : Env) {existing : List String} {s sl n : String}
    (hclose : ∀ s cands c r, env.close s cands c = some r → r ∈ cands)
    (h : resolveTail env existing s sl = some n) : n ∈ existing := by
  unfold resolveTail at h
  split at h
  · next hfs =>
      cases h
      obtain ⟨tok, -, htok⟩ := List.exists_of_findSome?_eq_some hfs
      exact existing_map_mem htok
  · split at h
    · next hfind =>
        cases h
        exact List.mem_of_find?_eq_some hfind
    · split at h
      · next hcont =>
          cases h
          exact List.mem_of_elem_eq_true hcont
      · split at h
        · next hfind =>
            cases h
            exact List.mem_of_find?_eq_some hfind
        · exact hclose _ _ _ _ h

end SortingLogic

open SortingLogic in
/-- C9: whatever the reply and the fuzzy-match oracle (constrained only
by the `difflib` contract that matches come from the candidate list),
`_resolve_spoken_box_name` answers `none` or a member of `existing`. -/
theorem c9_resolve_spoken_box_in_existing (env : Env) (spoken : String)
    (existing : List String)
    (hclose : ∀ s cands c r, env.close s cands c = some r → r ∈ cands) :
    ∀ r, _resolve_spoken_box_name env spoken existing = some r →
      r ∈ existing := by
  intro r h
  unfold _resolve_spoken_box_name at h
  dsimp only at h
  split at h
  · next hex =>
      cases h
      exact List.mem_of_elem_eq_true (Bool.and_elim_right hex)
  · split at h
    · next hstep =>
        cases h
        exact resolveBoxTokenStep_mem hstep
    · split at h
      · exact resolveTail_mem env hclose h
      · split at h
        · exact List.mem_of_mem_head? (Option.mem_def.mpr h)
        · exact resolveTail_mem env hclose h

open SortingLogic in
/-- C9, witness: a concrete reply resolving against two boxes (the
oracle obeying the `difflib` contract vacuously) lands in the set. -/
theorem c9_witness :
    _resolve_spoken_box_name
        { embed := fun _ => [], query := fun _ _ => [],
          close := fun _ _ _ => none, chat := fun _ => .ok "",
          parseJson := fun _ => none, transcripts := fun _ => "" }
        "put it in box b" ["A", "B"] = some "B" ∧
    ("B" : String) ∈ (["A", "B"] : List String) :=
  ⟨by decide,
   c9_resolve_spoken_box_in_existing
     { embed := fun _ => [], query := fun _ _ => [],
       close := fun _ _ _ => none, chat := fun _ => .ok "",
       parseJson := fun _ => none, transcripts := fun _ => "" }
     "put it in box b" ["A", "B"]
     (fun _ _ _ _ h => Option.noConfusion h) "B" (by decide)⟩

/-! ## C7 — an exhausted slot cancels the batch before execution -/

namespace SortingLogic

/-- `_ask_slot` only advances the transcript counter: store and index of
the returned world are those of the input world. -/
theorem ask_slot_frame (env : Env) (w : World) (p : String) :
    (((_ask_slot env w p).2).store, ((_ask_slot env w p).2).index) =
      (w.store, w.index) := by
  simp only [_ask_slot]
  split
  · rfl
  · split
    · rfl
    · rfl

/-- The per-field retry loop never touches store or index. -/
theorem attemptLoop_frame (env : Env) (field item q : String) :
    ∀ (n : Nat) (opn : NOp) (w : World),
      (((attemptLoop env field item q n opn w).2.2).store,
       ((attemptLoop env field item q n opn w).2.2).index) =
        (w.store, w.index) := by
  intro n
  induction n with
  | zero => intro opn w; rfl
  | succ n ih =>
      intro opn w
      have ha := ask_slot_frame env w q
      simp only [attemptLoop]
      generalize _ask_slot env w q = aw at ha ⊢
      repeat' split
      all_goals first
        | exact ha
        | exact (ih _ _).trans ha

/-- Filling one slot never touches store or index. -/
theorem fillField_frame (env : Env) (retries : Nat) (opn : NOp) (w : World)
    (field : String) :
    (((fillField env retries opn w field).2.2).store,
     ((fillField env retries opn w field).2.2).index) =
      (w.store, w.index) := by
  simp only [fillField]
  repeat' split
  all_goals first
    | rfl
    | exact attemptLoop_frame env _ _ _ retries opn w

/-- The required-fields loop of one op never touches store or index. -/
theorem fillFieldsLoop_frame (env : Env) (retries : Nat) :
    ∀ (fs : List String) (opn : NOp) (w : World),
      (((fillFieldsLoop env retries fs opn w).2.2).store,
       ((fillFieldsLoop env retries fs opn w).2.2).index) =
        (w.store, w.index) := by
  intro fs
  induction fs with
  | nil => intro opn w; rfl
  | cons f rest ih =>
      intro opn w
      have hf := fillField_frame env retries opn w f
      simp only [fillFieldsLoop]
      generalize fillField env retries opn w f = r at hf ⊢
      split
      · exact (ih _ _).trans hf
      · exact hf

/-- The whole slot-filling pass never touches store or index. -/
theorem fillOpsLoop_frame (env : Env) (retries : Nat) :
    ∀ (ns : List NOp) (w : World),
      (((fillOpsLoop env retries ns w).2).store,
       ((fillOpsLoop env retries ns w).2).index) =
        (w.store, w.index) := by
  intro ns
  induction ns with
  | nil => intro w; rfl
  | cons opn rest ih =>
      intro w
      have hf := fillFieldsLoop_frame env retries (_required_fields opn) opn w
      simp only [fillOpsLoop]
      generalize fillFieldsLoop env retries (_required_fields opn) opn w = r
        at hf ⊢
      split
      · have hrest := ih r.2.2
        split
        · next l w2 heq =>
            rw [heq] at hrest
            exact hrest.trans hf
        · next w2 heq =>
            rw [heq] at hrest
            exact hrest.trans hf
      · exact hf

end SortingLogic

open SortingLogic in
/-- C7: when normalization yields `ns`, some required field is missing,
and the slot-filling pass ends with a field still unfilled (`none`),
`_process_ops_batch` returns the failure quadruple
`(False, "", [], None)` without entering the execution loop, and the
returned world carries the caller's store and index unchanged (only the
transcript counter moved). -/
theorem c7_cancel_before_execution (env : Env) (w : World)
    (batch : List OpD) (ns : List NOp)
    (hn : normalizeAll batch = .ok ns)
    (hmiss : (missingAll ns).isEmpty = false)
    (hfail : (fillOpsLoop env (max 2 batch.length) ns w).1 = none) :
    _process_ops_batch env w batch =
      .ok ((false, "", [], none),
           (fillOpsLoop env (max 2 batch.length) ns w).2) ∧
    ((fillOpsLoop env (max 2 batch.length) ns w).2).store = w.store ∧
    ((fillOpsLoop env (max 2 batch.length) ns w).2).index = w.index := by
  have hfr := fillOpsLoop_frame env (max 2 batch.length) ns w
  refine ⟨?_, congrArg Prod.fst hfr, congrArg Prod.snd hfr⟩
  unfold _process_ops_batch
  rw [hn]
  show (match
      (if (missingAll ns).isEmpty = true then (some ns, w)
       else fillOpsLoop env (max 2 batch.length) ns w) with
    | (none, w2) => Except.ok ((false, "", [], none), w2)
    | (some ops, w2) => _) = _
  rw [hmiss]
  simp only [Bool.false_eq_true, if_false]
  have h2 : fillOpsLoop env (max 2 batch.length) ns w =
      (none, (fillOpsLoop env (max 2 batch.length) ns w).2) := by
    rw [← hfail]
  rw [h2]

open SortingLogic in
/-- C7, witness: a bare ADD with no object name, transcripts always
blank — the slot never fills, the batch fails, the world only gained
four consumed transcripts. -/
theorem c7_witness :
    _process_ops_batch
      { embed := fun _ => [], query := fun _ _ => [],
        close := fun _ _ _ => none, chat := fun _ => .ok "",
        parseJson := fun _ => none, transcripts := fun _ => "" }
      ⟨⟨[], [], 0⟩, [], 0⟩
      [{ intent := Json.str "ADD" }] =
      .ok ((false, "", [], none), ⟨⟨[], [], 0⟩, [], 4⟩) ∧
    (⟨⟨[], [], 0⟩, [], 4⟩ : World).store = (⟨⟨[], [], 0⟩, [], 0⟩ : World).store ∧
    (⟨⟨[], [], 0⟩, [], 4⟩ : World).index = (⟨⟨[], [], 0⟩, [], 0⟩ : World).index := by
  have h := c7_cancel_before_execution
    { embed := fun _ => [], query := fun _ _ => [],
      close := fun _ _ _ => none, chat := fun _ => .ok "",
      parseJson := fun _ => none, transcripts := fun _ => "" }
    ⟨⟨[], [], 0⟩, [], 0⟩
    [{ intent := Json.str "ADD" }]
    [⟨"ADD", "", "", "", "", false, false⟩]
    (by rfl) (by rfl) (by rfl)
  refine ⟨?_, rfl, rfl⟩
  rw [h.1]
  rfl

/-! ## C3 — MOVE into the current box: inert, but still announced -/

open SortingLogic InventoryService in
/-- C3, counterexample: moving candy to the box it already sits in
leaves the world exactly as it was, yet the spoken summary of the batch
is "Moved candy to box A" — a 'moved' fragment for the no-op. -/
theorem c3_counterexample :
    _process_ops_batch
      { embed := fun _ => [1],
        query := fun _ _ => [⟨"it1", mkRat 9 10, "candy", "candy", "bx1", ""⟩],
        close := fun _ _ _ => none, chat := fun _ => .ok "",
        parseJson := fun _ => none, transcripts := fun _ => "" }
      ⟨⟨[⟨"bx1", "A"⟩, ⟨"bx2", "B"⟩], [⟨"it1", "candy", "candy", 5, "bx1"⟩], 3⟩,
       [⟨"it1", "candy", "candy", "bx1", "A"⟩], 0⟩
      [{ intent := Json.str "MOVE", object_name := Json.str "candy",
         to_box := Json.str "A" }] =
      .ok ((true, "Moved candy to box A", [], none),
        ⟨⟨[⟨"bx1", "A"⟩, ⟨"bx2", "B"⟩], [⟨"it1", "candy", "candy", 5, "bx1"⟩], 3⟩,
         [⟨"it1", "candy", "candy", "bx1", "A"⟩], 0⟩) ∧
    pyIn "moved" (pyLower "Moved candy to box A") = true :=
  ⟨by rfl, by rfl⟩

open SortingLogic InventoryService in
/-- C3 (amended): when a MOVE's object resolves to a concrete record
already in the destination box (and no source-box constraint applies),
`move_item` is a no-op returning that record with the world — store and
index — untouched; but the execution step still appends the fragment
"moved {obj} to box {dest}" to the spoken summary. -/
theorem c3_move_noop_world_summary (env : Env) (w : World) (multi : Bool)
    (op : NOp) (sfb : String) (parts : List String) (qv : Option Int)
    (cand c : Item) (dest : Box)
    (hint : op.intent = "MOVE") (hev : op.everything = false)
    (hsfb : strTruthy sfb = false)
    (hcand : (resolveCand env op.object_name none).1 = some cand)
    (hconc : resolveConcrete w cand false = some c)
    (hdest : _find_box_by_name env w op.to_box = some dest)
    (hsame : c.box_id = dest.id) :
    move_item env w op.object_name op.to_box (some sfb) none =
      .ok ((some c, []), w) ∧
    execOp env multi sfb ⟨w, parts, qv⟩ op =
      .ok (.next ⟨w,
        parts ++ ["moved " ++ op.object_name ++ " to box " ++ op.to_box],
        qv⟩) := by
  have hmv : move_item env w op.object_name op.to_box (some sfb) none =
      .ok ((some c, []), w) := by
    unfold move_item
    simp only [hdest, hcand, Option.isSome_none, hconc, hsfb,
      Bool.false_eq_true, if_false, Bool.not_true, if_pos hsame]
  refine ⟨hmv, ?_⟩
  unfold execOp
  dsimp only
  rw [hint]
  rw [if_neg (show ¬ ("MOVE" : String) = "ADD" by decide)]
  rw [if_neg (show ¬ ("MOVE" : String) = "REMOVE" by decide)]
  rw [if_pos rfl]
  simp only [hev, Bool.false_and, Bool.false_eq_true, if_false]
  rw [hmv]

open SortingLogic InventoryService in
/-- C3, witness: the amended statement at the concrete no-op MOVE. -/
theorem c3_witness :
    move_item
      { embed := fun _ => [1],
        query := fun _ _ => [⟨"it1", mkRat 9 10, "candy", "candy", "bx1", ""⟩],
        close := fun _ _ _ => none, chat := fun _ => .ok "",
        parseJson := fun _ => none, transcripts := fun _ => "" }
      ⟨⟨[⟨"bx1", "A"⟩, ⟨"bx2", "B"⟩], [⟨"it1", "candy", "candy", 5, "bx1"⟩], 3⟩,
       [⟨"it1", "candy", "candy", "bx1", "A"⟩], 0⟩
      "candy" "A" (some "") none =
      .ok ((some ⟨"it1", "candy", "candy", 5, "bx1"⟩, []),
        ⟨⟨[⟨"bx1", "A"⟩, ⟨"bx2", "B"⟩], [⟨"it1", "candy", "candy", 5, "bx1"⟩], 3⟩,
         [⟨"it1", "candy", "candy", "bx1", "A"⟩], 0⟩) ∧
    execOp
      { embed := fun _ => [1],
        query := fun _ _ => [⟨"it1", mkRat 9 10, "candy", "candy", "bx1", ""⟩],
        close := fun _ _ _ => none, chat := fun _ => .ok "",
        parseJson := fun _ => none, transcripts := fun _ => "" }
      false ""
      ⟨⟨⟨[⟨"bx1", "A"⟩, ⟨"bx2", "B"⟩], [⟨"it1", "candy", "candy", 5, "bx1"⟩], 3⟩,
        [⟨"it1", "candy", "candy", "bx1", "A"⟩], 0⟩, [], none⟩
      ⟨"MOVE", "candy", "", "A", "", false, false⟩ =
      .ok (.next ⟨⟨⟨[⟨"bx1", "A"⟩, ⟨"bx2", "B"⟩],
          [⟨"it1", "candy", "candy", 5, "bx1"⟩], 3⟩,
          [⟨"it1", "candy", "candy", "bx1", "A"⟩], 0⟩,
        [] ++ ["moved " ++ "candy" ++ " to box " ++ "A"], none⟩) :=
  c3_move_noop_world_summary
    { embed := fun _ => [1],
      query := fun _ _ => [⟨"it1", mkRat 9 10, "candy", "candy", "bx1", ""⟩],
      close := fun _ _ _ => none, chat := fun _ => .ok "",
      parseJson := fun _ => none, transcripts := fun _ => "" }
    ⟨⟨[⟨"bx1", "A"⟩, ⟨"bx2", "B"⟩], [⟨"it1", "candy", "candy", 5, "bx1"⟩], 3⟩,
     [⟨"it1", "candy", "candy", "bx1", "A"⟩], 0⟩
    false ⟨"MOVE", "candy", "", "A", "", false, false⟩ "" [] none
    ⟨"it1", "candy", "candy", 0, "bx1"⟩
    ⟨"it1", "candy", "candy", 5, "bx1"⟩
    ⟨"bx1", "A"⟩
    rfl rfl rfl (by rfl) (by rfl) (by rfl) rfl

/-! ## C2 — NLU entry points and the chat collaborator's exceptions -/

namespace ParseIntent

/-- When the chat collaborator returns (it may answer garbage but must
not raise), the LLM fallback always produces a draft. -/
theorem parseLLMFallback_total (env : Env)
    (hok : ∀ p, ∃ s, env.chat p = .ok s) (t text : String) :
    ∃ op, parseLLMFallback env t text = .ok op := by
  obtain ⟨s, hs⟩ := hok (parsePrompt text)
  unfold parseLLMFallback
  rw [hs]
  dsimp only
  repeat' split
  all_goals exact ⟨_, rfl⟩

/-- Every rule of the tail cascade returns a draft; the final fallback
does too when chat returns. -/
theorem parseTail_total (env : Env)
    (hok : ∀ p, ∃ s, env.chat p = .ok s) (t text : String) :
    ∃ op, parse.parseTail env t text = .ok op := by
  unfold parse.parseTail
  repeat' split
  all_goals first
    | exact ⟨_, rfl⟩
    | exact parseLLMFallback_total env hok t text

end ParseIntent

open ParseIntent MultiIntent in
/-- C2, counterexample: `gpt.chat` is called outside the `try` in both
`IntentParser.parse` and `MultiIntentExtractor.extract`, so a raised
chat exception propagates to the caller of either. -/
theorem c2_counterexample :
    parse
      { embed := fun _ => [], query := fun _ _ => [],
        close := fun _ _ _ => none, chat := fun _ => .error "boom",
        parseJson := fun _ => none, transcripts := fun _ => "" }
      "hello world" = .error "boom" ∧
    extract
      { embed := fun _ => [], query := fun _ _ => [],
        close := fun _ _ _ => none, chat := fun _ => .error "boom",
        parseJson := fun _ => none, transcripts := fun _ => "" }
      "add candy" = .error "boom" :=
  ⟨by rfl, by rfl⟩

open ParseIntent MultiIntent in
/-- C2 (amended): the defensive decoding covers everything except a
raised chat exception. When the chat collaborator returns normally on
every prompt: `parse` always returns a draft, `extract` always returns
an op list; and on a reply the JSON decoder cannot parse, the `parse`
fallback returns the all-null draft while `extract` returns the empty
list. -/
theorem c2_decode_defensive (env : Env) (text t content : String)
    (hok : ∀ p, ∃ s, env.chat p = .ok s) :
    (∃ op, parse env text = .ok op) ∧
    (∃ ops, extract env text = .ok ops) ∧
    (env.chat (parsePrompt text) = .ok content →
      env.parseJson content = none →
      parseLLMFallback env t text = .ok {}) ∧
    (env.chat (multiPrompt (pyStrip text)) = .ok content →
      env.parseJson (_strip_fences content) = none →
      extract env text = .ok []) := by
  refine ⟨?_, ?_, ?_, ?_⟩
  · unfold parse
    dsimp only
    repeat' split
    all_goals first
      | exact ⟨_, rfl⟩
      | exact parseTail_total env hok _ text
  · unfold extract
    dsimp only
    split
    · exact ⟨[], rfl⟩
    · obtain ⟨s, hs⟩ := hok (multiPrompt (pyStrip text))
      rw [hs]
      dsimp only
      split
      · exact ⟨[], rfl⟩
      · exact ⟨_, rfl⟩
  · intro hchat hdec
    unfold parseLLMFallback
    rw [hchat]
    dsimp only
    rw [hdec]
  · intro hchat hdec
    unfold extract
    dsimp only
    split
    · rfl
    · rw [hchat]
      dsimp only
      rw [hdec]

open ParseIntent MultiIntent in
/-- C2, witness: a collaborator that always answers non-JSON text — both
entry points return, and the decode failures default as stated. -/
theorem c2_witness :
    (∃ op, parse
      { embed := fun _ => [], query := fun _ _ => [],
        close := fun _ _ _ => none, chat := fun _ => .ok "not json",
        parseJson := fun _ => none, transcripts := fun _ => "" }
      "hello" = .ok op) ∧
    (∃ ops, extract
      { embed := fun _ => [], query := fun _ _ => [],
        close := fun _ _ _ => none, chat := fun _ => .ok "not json",
        parseJson := fun _ => none, transcripts := fun _ => "" }
      "hello" = .ok ops) ∧
    (Env.chat
      { embed := fun _ => [], query := fun _ _ => [],
        close := fun _ _ _ => none, chat := fun _ => .ok "not json",
        parseJson := fun _ => none, transcripts := fun _ => "" }
      (parsePrompt "hello") = .ok "not json" →
      Env.parseJson
        { embed := fun _ => [], query := fun _ _ => [],
          close := fun _ _ _ => none, chat := fun _ => .ok "not json",
          parseJson := fun _ => none, transcripts := fun _ => "" }
        "not json" = none →
      parseLLMFallback
        { embed := fun _ => [], query := fun _ _ => [],
          close := fun _ _ _ => none, chat := fun _ => .ok "not json",
          parseJson := fun _ => none, transcripts := fun _ => "" }
        "hello" "hello" = .ok {}) ∧
    (Env.chat
      { embed := fun _ => [], query := fun _ _ => [],
        close := fun _ _ _ => none, chat := fun _ => .ok "not json",
        parseJson := fun _ => none, transcripts := fun _ => "" }
      (multiPrompt (pyStrip "hello")) = .ok "not json" →
      Env.parseJson
        { embed := fun _ => [], query := fun _ _ => [],
          close := fun _ _ _ => none, chat := fun _ => .ok "not json",
          parseJson := fun _ => none, transcripts := fun _ => "" }
        (_strip_fences "not json") = none →
      extract
        { embed := fun _ => [], query := fun _ _ => [],
          close := fun _ _ _ => none, chat := fun _ => .ok "not json",
          parseJson := fun _ => none, transcripts := fun _ => "" }
        "hello" = .ok []) :=
  c2_decode_defensive
    { embed := fun _ => [], query := fun _ _ => [],
      close := fun _ _ _ => none, chat := fun _ => .ok "not json",
      parseJson := fun _ => none, transcripts := fun _ => "" }
    "hello" "hello" "not json" (fun _ => ⟨"not json", rfl⟩)

end StorageAI
